import Mathlib

/-!
Verification of the `xiaozhi_baidumap_mcp` Baidu-Maps MCP adapter
(`src/xiaozhi_baidumap_mcp/baidumap.py`) against its specification.

The Python module is shallowly embedded below: each validator, the URI
builder, the Navigator wrapper and every tool function become executable
Lean definitions.  Loosely-typed Python values are modelled by `PyVal`;
external capabilities (Android intent dispatch, `json.loads`, the device
location provider) are passed in as explicit function parameters.  Each
tool returns its result together with the list of URIs it handed to the
Navigator, so "no dispatch happened" is the statement that this list is
empty.
-/

/-- ASCII decimal digit test, phrased on codepoints so that arithmetic
lemmas apply directly.  This models both Python's digit acceptance in
`float`/`int` parsing and the regex class `\d` (the CPython versions also
accept non-ASCII decimal digits; those are outside the modelled alphabet). -/
def isAsciiDigit (c : Char) : Bool :=
  48 ≤ c.toNat && c.toNat ≤ 57

/-- Whitespace stripped by Python's `str.strip()` (and by `float()`):
ASCII whitespace plus the Unicode space characters. -/
def pyIsSpace (c : Char) : Bool :=
  let n := c.toNat
  n = 32 || n = 9 || n = 10 || n = 13 || n = 11 || n = 12 ||
  (28 ≤ n && n ≤ 31) || n = 133 || n = 160 || n = 5760 ||
  (8192 ≤ n && n ≤ 8202) || n = 8232 || n = 8233 || n = 8239 || n = 8287 || n = 12288

/-- `str.strip()`: drop leading and trailing whitespace. -/
def pyStrip (cs : List Char) : List Char :=
  ((cs.dropWhile pyIsSpace).reverse.dropWhile pyIsSpace).reverse

/-- Continuation of a digit run in Python numeric literals: consumes
`(_? digit | digit)*`, i.e. further digits where a single underscore may
separate two digits.  Returns the digits collected (underscores removed,
as Python's parser removes them) and the unconsumed remainder.
The caller guarantees the previous character was a digit. -/
def digitRunCont : List Char → List Char × List Char
  | [] => ([], [])
  | c :: r =>
    if isAsciiDigit c then
      let p := digitRunCont r
      (c :: p.1, p.2)
    else if c = '_' then
      match r with
      | d :: r2 =>
        if isAsciiDigit d then
          let p := digitRunCont r2
          (d :: p.1, p.2)
        else ([], c :: r)
      | [] => ([], [c])
    else ([], c :: r)

/-- A Python `digitpart`: `digit (_? digit)*`, maximal munch.  Returns
`([], cs)` when `cs` does not start with a digit. -/
def digitRun (cs : List Char) : List Char × List Char :=
  match cs with
  | c :: r =>
    if isAsciiDigit c then
      let p := digitRunCont r
      (c :: p.1, p.2)
    else ([], cs)
  | [] => ([], [])

/-- Mantissa of a Python float literal:
`digitpart [ "." [digitpart] ] | "." digitpart`.
Returns the remainder after the mantissa, or `none` if no mantissa. -/
def eatMantissa (cs : List Char) : Option (List Char) :=
  let p := digitRun cs
  if p.1.isEmpty then
    match cs with
    | '.' :: r =>
      let q := digitRun r
      if q.1.isEmpty then none else some q.2
    | _ => none
  else
    match p.2 with
    | '.' :: r => some (digitRun r).2
    | _ => some p.2

/-- Exponent-or-end of a Python float literal: either the string is
exhausted, or `("e"|"E") [sign] digitpart` consumes all of it. -/
def eatExponent : List Char → Bool
  | [] => true
  | c :: r =>
    if c = 'e' || c = 'E' then
      let r2 := match r with
        | '+' :: r3 => r3
        | '-' :: r3 => r3
        | r3 => r3
      let q := digitRun r2
      !q.1.isEmpty && q.2.isEmpty
    else false

/-- Lower-casing of an ASCII letter (identity elsewhere), used for the
case-insensitive `inf`/`infinity`/`nan` forms of Python floats. -/
def lowerChar (c : Char) : Char :=
  if 65 ≤ c.toNat && c.toNat ≤ 90 then Char.ofNat (c.toNat + 32) else c

/-- Strip one optional leading sign of a numeric literal. -/
def stripSign (cs : List Char) : List Char :=
  match cs with
  | c :: r => if c = '+' || c = '-' then r else c :: r
  | [] => []

/-- The case-insensitive special float words accepted by Python
(after lower-casing): `inf`, `infinity`, `nan`. -/
def isInfNan (cs : List Char) : Bool :=
  cs = ['i', 'n', 'f'] || cs = ['i', 'n', 'f', 'i', 'n', 'i', 't', 'y'] || cs = ['n', 'a', 'n']

/-- Whether Python's `float()` accepts the string (so that
`float(s)` does not raise `ValueError`): surrounding whitespace is
stripped, then an optional sign followed by `inf`/`infinity`/`nan`
(case-insensitive) or a floating-point literal. -/
def pyFloatAccepts (cs : List Char) : Bool :=
  let cs2 := stripSign (pyStrip cs)
  if isInfNan (cs2.map lowerChar) then true
  else
    match eatMantissa cs2 with
    | some rest => eatExponent rest
    | none => false

/-- Python's `int()` on a string: strip whitespace, optional sign, then a
base-10 `digitpart` consuming the whole rest.  Returns the parsed value. -/
def pyParseInt (s : String) : Option Int :=
  let cs := pyStrip s.toList
  let sgncs : Bool × List Char := match cs with
    | '+' :: r => (false, r)
    | '-' :: r => (true, r)
    | r => (false, r)
  let p := digitRun sgncs.2
  match p with
  | (ds, []) =>
    if ds.isEmpty then none
    else
      let n : Nat := ds.foldl (fun a c => a * 10 + (c.toNat - 48)) 0
      some (if sgncs.1 then -(n : Int) else (n : Int))
  | _ => none

/-- `str.split(',')`: split at every comma; no part is dropped, so the
empty string yields one empty part. -/
def splitComma : List Char → List (List Char)
  | [] => [[]]
  | c :: r =>
    if c = ',' then [] :: splitComma r
    else
      match splitComma r with
      | h :: t => (c :: h) :: t
      | [] => [[c]]

/-- Maximal run of plain ASCII digits (regex `\d*`); no underscores. -/
def asciiDigits : List Char → List Char × List Char
  | c :: r =>
    if isAsciiDigit c then
      let p := asciiDigits r
      (c :: p.1, p.2)
    else ([], c :: r)
  | [] => ([], [])

/-- Substring test on character lists (Python's `in` on strings). -/
def containsSub (needle : List Char) (hay : List Char) : Bool :=
  match hay with
  | [] => needle.isEmpty
  | c :: r => needle.isPrefixOf (c :: r) || containsSub needle r

-- Sanity examples for the float grammar (Python `float()` behaviour).
example : pyFloatAccepts "40.057406".toList = true := by decide
example : pyFloatAccepts "-112.59".toList = true := by decide
example : pyFloatAccepts " 1_0.5e-3 ".toList = true := by decide
example : pyFloatAccepts "inf".toList = true := by decide
example : pyFloatAccepts "-Infinity".toList = true := by decide
example : pyFloatAccepts "1.".toList = true := by decide
example : pyFloatAccepts ".5".toList = true := by decide
example : pyFloatAccepts "".toList = false := by decide
example : pyFloatAccepts "abc".toList = false := by decide
example : pyFloatAccepts "1_".toList = false := by decide
example : pyFloatAccepts "1__2".toList = false := by decide
example : pyFloatAccepts "1e".toList = false := by decide
example : pyFloatAccepts ".".toList = false := by decide
example : pyParseInt "13" = some 13 := by decide
example : pyParseInt " -2 " = some (-2) := by decide
example : pyParseInt "1_0" = some 10 := by decide
example : pyParseInt "1.5" = none := by decide
example : pyParseInt "" = none := by decide
example : splitComma "1,2,3".toList = ["1".toList, "2".toList, "3".toList] := by decide
example : splitComma "".toList = [[]] := by decide
example : containsSub "name:".toList "a,name:b".toList = true := by decide
example : containsSub "uid:".toList "a,b".toList = false := by decide

/-! ## Loosely-typed Python values

`PyVal` models the dynamic values flowing through the module: tool
arguments, entries of the parameter dictionaries handed to the URI
builder, and results of `json.loads`.  A Python `float` is identified
here by its shortest decimal literal; the code under verification never
computes with float values, it only inspects their dynamic type and
(for URI building) their textual representation. -/
inductive PyVal where
  | null
  | bool (b : Bool)
  | int (n : Int)
  | float (lit : String)
  | str (s : String)
  | list (xs : List PyVal)
  | dict (fs : List (String × PyVal))

/-- `type(v).__name__` as it appears inside Python's `f"{type(v)}"`. -/
def pyTypeName : PyVal → String
  | .null => "<class \x27NoneType\x27>"
  | .bool _ => "<class \x27bool\x27>"
  | .int _ => "<class \x27int\x27>"
  | .float _ => "<class \x27float\x27>"
  | .str _ => "<class \x27str\x27>"
  | .list _ => "<class \x27list\x27>"
  | .dict _ => "<class \x27dict\x27>"

/-- Python dict lookup on the (insertion-ordered) field list; on duplicate
keys the later binding wins, as in a Python dict literal / `json.loads`. -/
def dictGet (fs : List (String × PyVal)) (k : String) : Option PyVal :=
  match fs with
  | [] => none
  | (k2, v) :: r =>
    match dictGet r k with
    | some v2 => some v2
    | none => if k2 = k then some v else none

/-- Python `k in d`. -/
def hasKey (fs : List (String × PyVal)) (k : String) : Bool :=
  (dictGet fs k).isSome

/-- Python `isinstance(v, str)`. -/
def isPyStr : PyVal → Bool
  | .str _ => true
  | _ => false

/-- Python `isinstance(v, (int, float))`.  NOTE: `bool` is a subclass of
`int` in Python, so booleans satisfy this test. -/
def isPyNumber : PyVal → Bool
  | .int _ => true
  | .float _ => true
  | .bool _ => true
  | _ => false

/-- Python `isinstance(v, (int, str))` (again, `bool` counts as `int`). -/
def isPyIntOrStr : PyVal → Bool
  | .int _ => true
  | .bool _ => true
  | .str _ => true
  | _ => false

/-- Escaping used by Python `repr` on the strings occurring here. -/
def escapePyChar (c : Char) : List Char :=
  if c = '\\' then ['\\', '\\']
  else if c = '\x27' then ['\\', '\x27']
  else if c = '\n' then ['\\', 'n']
  else if c = '\r' then ['\\', 'r']
  else if c = '\t' then ['\\', 't']
  else [c]

/-- Python `repr` of a string value. -/
def pyStrRepr (s : String) : String :=
  String.mk ('\x27' :: (s.toList.flatMap escapePyChar ++ ['\x27']))

mutual
/-- Python `repr` of a JSON-decoded value (as used by `str()` on the
containers that end up in URI parameters). -/
def pyRepr : PyVal → String
  | .null => "None"
  | .bool b => if b then "True" else "False"
  | .int n => toString n
  | .float lit => lit
  | .str s => pyStrRepr s
  | .list xs => "[" ++ pyReprList xs ++ "]"
  | .dict fs => "\x7b" ++ pyReprFields fs ++ "\x7d"

def pyReprList : List PyVal → String
  | [] => ""
  | [x] => pyRepr x
  | x :: y :: r => pyRepr x ++ ", " ++ pyReprList (y :: r)

def pyReprFields : List (String × PyVal) → String
  | [] => ""
  | [kv] => pyStrRepr kv.1 ++ ": " ++ pyRepr kv.2
  | kv :: y :: r => pyStrRepr kv.1 ++ ": " ++ pyRepr kv.2 ++ ", " ++ pyReprFields (y :: r)
end

/-- Python `str()` as applied by `urllib.parse.urlencode` to each value. -/
def pyStr : PyVal → String
  | .null => "None"
  | .bool b => if b then "True" else "False"
  | .int n => toString n
  | .float lit => lit
  | .str s => s
  | .list xs => pyRepr (.list xs)
  | .dict fs => pyRepr (.dict fs)

/-! ## Result envelopes -/

/-- The uniform response envelope: `{"success": True, "message": m}` or
`{"success": False, "error": e}`. -/
inductive ToolResult where
  | ok (message : String)
  | err (error : String)
deriving DecidableEq, Repr

example : pyStr (.int 13) = "13" := by decide
example : pyStr (.str "on") = "on" := by decide
example : dictGet [("a", .int 1), ("a", .int 2)] "a" = some (.int 2) := rfl
example : hasKey [("name", .str "A")] "lat" = false := rfl

/-! ## Validation helper functions (`baidumap.py` lines 77–202)

Each validator returns `none` for success or `some (.err msg)`, modelling
the Python functions that return `None` or an error dictionary
`{"success": False, "error": msg}`.  Parameters that the function
signatures type as `str` are embedded as `String`, so the
`isinstance(value_str, str)` guards of the source are statically true and
have no corresponding branch here. -/

/-- Error text of `_validate_lat_lng_format` for a wrong comma count. -/
def latLngCountMsg (param_name value_str : String) : String :=
  "Parameter \x27" ++ param_name ++ "\x27 (\x27" ++ value_str ++
  "\x27) has an incorrect format. Expected \x27latitude,longitude\x27 (e.g., \x2740.057406,116.296440\x27)."

/-- Error text of `_validate_lat_lng_format` for a non-numeric part. -/
def latLngNumMsg (param_name value_str : String) : String :=
  "Parameter \x27" ++ param_name ++ "\x27 (\x27" ++ value_str ++
  "\x27) contains non-numeric coordinates. Both latitude and longitude must be numbers in \x27latitude,longitude\x27 format."

/-- `_validate_lat_lng_format(value_str, param_name)`: the string must
split on commas into exactly two parts, each accepted by `float()` after
stripping. -/
def validate_lat_lng_format (value_str param_name : String) : Option ToolResult :=
  match splitComma value_str.toList with
  | [p0, p1] =>
    if pyFloatAccepts (pyStrip p0) && pyFloatAccepts (pyStrip p1) then none
    else some (.err (latLngNumMsg param_name value_str))
  | _ => some (.err (latLngCountMsg param_name value_str))

/-- Error text of `_validate_bounds_format` for a wrong comma count. -/
def boundsCountMsg (param_name value_str : String) : String :=
  "Parameter \x27" ++ param_name ++ "\x27 (\x27" ++ value_str ++
  "\x27) has an incorrect format. Expected \x27bottomLeftLat,bottomLeftLng,topRightLat,topRightLng\x27 (e.g., \x2737.8,-112.5,42.1,118.9\x27)."

/-- Error text of `_validate_bounds_format` for a non-numeric part. -/
def boundsNumMsg (param_name value_str : String) : String :=
  "Parameter \x27" ++ param_name ++ "\x27 (\x27" ++ value_str ++
  "\x27) contains non-numeric values. All four coordinates must be numbers in the \x27bottomLeftLat,...,topRightLng\x27 format."

/-- `_validate_bounds_format(value_str, param_name)`: exactly four
comma-separated parts, each accepted by `float()` after stripping. -/
def validate_bounds_format (value_str param_name : String) : Option ToolResult :=
  match splitComma value_str.toList with
  | [p0, p1, p2, p3] =>
    if pyFloatAccepts (pyStrip p0) && pyFloatAccepts (pyStrip p1) &&
       pyFloatAccepts (pyStrip p2) && pyFloatAccepts (pyStrip p3) then none
    else some (.err (boundsNumMsg param_name value_str))
  | _ => some (.err (boundsCountMsg param_name value_str))

/-! The regex `COMPLEX_LATLNG_EXTRACT_PATTERN = latlng:(-?\d+\.?\d*,-?\d+\.?\d*)`,
used with `re.search` and `.group(1)`.  The pattern is deterministic for
this alphabet, so greedy maximal munch coincides with the backtracking
semantics: each number is an optional `-`, a maximal digit run, then
optionally `.` and another maximal digit run; no shorter parse can expose
the `,` that the pattern requires next, because every earlier stopping
point is followed by a digit or a dot. -/

/-- The optional leading `-` of the regex numbers: returns the consumed
sign (as a list) and the rest. -/
def matchSign (cs : List Char) : List Char × List Char :=
  match cs with
  | c :: r => if c = '-' then (['-'], r) else ([], c :: r)
  | [] => ([], [])

/-- Match `-?\d+\.?\d*` at the front; returns (consumed, rest). -/
def matchNum (cs : List Char) : Option (List Char × List Char) :=
  let sgn := matchSign cs
  let p := asciiDigits sgn.2
  if p.1.isEmpty then none
  else
    match p.2 with
    | c :: r =>
      if c = '.' then
        let q := asciiDigits r
        some (sgn.1 ++ p.1 ++ '.' :: q.1, q.2)
      else some (sgn.1 ++ p.1, p.2)
    | [] => some (sgn.1 ++ p.1, p.2)

/-- Match the capture group `-?\d+\.?\d*,-?\d+\.?\d*` at the front;
returns the captured characters. -/
def matchPair (cs : List Char) : Option (List Char) :=
  match matchNum cs with
  | some (n1, rest) =>
    match rest with
    | c :: r2 =>
      if c = ',' then
        match matchNum r2 with
        | some (n2, _) => some (n1 ++ ',' :: n2)
        | none => none
      else none
    | [] => none
  | none => none

/-- `re.search(COMPLEX_LATLNG_EXTRACT_PATTERN, s)`: the leftmost position
where the literal `latlng:` is followed by a number pair; returns
`group(1)`. -/
def latlngSearch : List Char → Option (List Char)
  | [] => none
  | c :: r =>
    match (if ("latlng:".toList).isPrefixOf (c :: r) then matchPair ((c :: r).drop 7) else none) with
    | some g => some g
    | none => latlngSearch r

/-- The composed field name used when validating a coordinate part found
by the `latlng:` pattern. -/
def latlngPartName (param_name value_str : String) : String :=
  "coordinate part identified by \x27latlng:\x27 in \x27" ++ param_name ++
  "\x27 (\x27" ++ value_str ++ "\x27)"

/-- `_validate_location_field_format(value_str, param_name)`: if the
`latlng:` pattern matches, validate the captured pair; else if the string
has a comma and none of the keywords `name:`/`uid:`, validate the whole
string as a bare pair; otherwise accept. -/
def validate_location_field_format (value_str param_name : String) : Option ToolResult :=
  match latlngSearch value_str.toList with
  | some g => validate_lat_lng_format (String.mk g) (latlngPartName param_name value_str)
  | none =>
    if value_str.toList.contains ',' &&
       !(containsSub "name:".toList value_str.toList) &&
       !(containsSub "uid:".toList value_str.toList) then
      validate_lat_lng_format value_str param_name
    else none

/-- `_validate_coord_type(coord_type)`. -/
def validate_coord_type (coord_type : String) : Option ToolResult :=
  if !(["bd09ll", "bd09mc", "gcj02", "wgs84"].contains coord_type) then
    some (.err ("Invalid coordinate type \x27" ++ coord_type ++
      "\x27. It should be one of \x27bd09ll\x27, \x27bd09mc\x27, \x27gcj02\x27, or \x27wgs84\x27."))
  else none

/-- Range part of `_validate_zoom_level`, applied to the (possibly
coerced) integer value; `shown` is what the f-string interpolates. -/
def zoomRange (n : Int) (shown : String) : Option ToolResult :=
  if n < 1 || n > 22 then
    some (.err ("Invalid zoom level \x27" ++ shown ++ "\x27. It should be between 1 and 22."))
  else none

/-- `_validate_zoom_level(zoom)`: anything that is not an `int` (including
`bool`, which is an `int` subclass) or `str` is a type error; a `str` must
parse with `int()`; the resulting integer must lie in `[1, 22]`. -/
def validate_zoom_level (zoom : PyVal) : Option ToolResult :=
  match zoom with
  | .int n => zoomRange n (toString n)
  | .bool b => zoomRange (if b then 1 else 0) (if b then "True" else "False")
  | .str s =>
    match pyParseInt s with
    | some n => zoomRange n (toString n)
    | none => some (.err ("Invalid zoom level \x27" ++ s ++ "\x27. It should be an integer."))
  | v => some (.err ("Invalid zoom level type \x27" ++ pyTypeName v ++ "\x27. It should be an integer or string."))

/-- `_validate_traffic(traffic)`: `None` passes; a non-string is a type
error; a string must be `"on"` or `"off"`. -/
def validate_traffic (traffic : PyVal) : Option ToolResult :=
  match traffic with
  | .null => none
  | .str s =>
    if !(["on", "off"].contains s) then
      some (.err ("Invalid traffic value \x27" ++ s ++ "\x27. It should be \x27on\x27 or \x27off\x27."))
    else none
  | v => some (.err ("Invalid traffic type \x27" ++ pyTypeName v ++ "\x27. It should be a string."))

-- Sanity examples, matching the spec's §8 test vectors.
example : validate_lat_lng_format "40.057406,116.296440" "center" = none := by decide
example : validate_lat_lng_format "1,2,3" "center" =
    some (.err (latLngCountMsg "center" "1,2,3")) := by decide
example : validate_bounds_format "37.86,-112.59,42.19,118.94" "bounds" = none := by decide
example : validate_bounds_format "1,2,3" "bounds" =
    some (.err (boundsCountMsg "bounds" "1,2,3")) := by decide
example : validate_coord_type "xyz" ≠ none := by decide
example : validate_coord_type "wgs84" = none := by decide
example : validate_location_field_format "name:X|latlng:39.98871,116.43234" "origin" = none := by decide
example : validate_location_field_format "Main Street, City" "origin" ≠ none := by decide
example : validate_location_field_format "39.98871,116.43234" "origin" = none := by decide
example : validate_location_field_format "Tiananmen" "origin" = none := by decide
example : validate_zoom_level (.int 13) = none := by decide
example : validate_zoom_level (.int 0) ≠ none := by decide
example : validate_zoom_level (.str "13") = none := by decide
example : validate_zoom_level .null ≠ none := by decide
example : validate_traffic .null = none := by decide
example : validate_traffic (.str "on") = none := by decide
example : validate_traffic (.str "x") ≠ none := by decide

/-! ## URI building (`build_baidu_uri`, lines 62–74)

`urllib.parse.urlencode` with its defaults: each key and each `str(value)`
is quoted by `quote_plus` (alphanumerics and `_.-~` kept, space becomes
`+`, every other character percent-encoded per UTF-8 byte, uppercase hex)
and the `key=value` pairs are joined with `&` in insertion order. -/

def DEFAULT_SRC : String := "andr.xiaomi.assistant"

def BAIDUMAP_NATIVE_BASE_URL : String := "baidumap://map/"

/-- UTF-8 bytes of a character. -/
def utf8Bytes (c : Char) : List Nat :=
  let n := c.toNat
  if n < 128 then [n]
  else if n < 2048 then [192 + n / 64, 128 + n % 64]
  else if n < 65536 then [224 + n / 4096, 128 + (n / 64) % 64, 128 + n % 64]
  else [240 + n / 262144, 128 + (n / 4096) % 64, 128 + (n / 64) % 64, 128 + n % 64]

/-- Uppercase hexadecimal digit. -/
def hexDigitChar (n : Nat) : Char :=
  if n < 10 then Char.ofNat (48 + n) else Char.ofNat (55 + n)

/-- `%XX` encoding of one byte. -/
def pctByte (b : Nat) : List Char :=
  ['%', hexDigitChar (b / 16), hexDigitChar (b % 16)]

/-- `urllib.parse.quote_plus` with default `safe`. -/
def quote_plus (s : String) : String :=
  String.mk (s.toList.flatMap fun c =>
    if c.isAlpha || c.isDigit || c = '_' || c = '.' || c = '-' || c = '~' then [c]
    else if c = ' ' then ['+']
    else (utf8Bytes c).flatMap pctByte)

/-- One `key=value` component of the query string. -/
def encodePair (kv : String × PyVal) : String :=
  quote_plus kv.1 ++ "=" ++ quote_plus (pyStr kv.2)

/-- Join query components with `&`. -/
def joinAmp : List String → String
  | [] => ""
  | [x] => x
  | x :: y :: r => x ++ "&" ++ joinAmp (y :: r)

/-- `urllib.parse.urlencode` on an insertion-ordered parameter list. -/
def urlencode (ps : List (String × PyVal)) : String :=
  joinAmp (ps.map encodePair)

/-- Python truthiness as needed here: `None` is falsy. -/
def isNull : PyVal → Bool
  | .null => true
  | _ => false

/-- `{k: v for k, v in params.items() if v is not None}`. -/
def filterNone (ps : List (String × PyVal)) : List (String × PyVal) :=
  ps.filter (fun kv => !isNull kv.2)

/-- `build_baidu_uri(path, params)`: drop `None` values, urlencode the
rest, append `?query` only when the query string is non-empty. -/
def build_baidu_uri (path : String) (params : List (String × PyVal)) : String :=
  let filtered_params := filterNone params
  let query_string := urlencode filtered_params
  let full_uri := BAIDUMAP_NATIVE_BASE_URL ++ path
  if query_string = "" then full_uri else full_uri ++ "?" ++ query_string

example : build_baidu_uri "show"
    [("center", .str "40.057406,116.296440"), ("zoom", .int 13),
     ("bounds", .null), ("src", .str "app.id")] =
    "baidumap://map/show?center=40.057406%2C116.296440&zoom=13&src=app.id" := by decide
example : build_baidu_uri "show" [] = "baidumap://map/show" := by decide

/-! ## Navigator (`Navigate`, lines 44–60) -/

/-- Outcome of the external device capability
`AndroidDevice().start_activity` on a VIEW intent: it either returns, or
raises an exception whose `str()` is `msg`. -/
inductive DispatchOutcome where
  | ok
  | raises (msg : String)

/-- `Navigate(uri)`: hand the URI to the device as a VIEW intent with the
NEW_TASK flag; convert success and any exception into the uniform
envelope.  The external capability is the `dispatch` parameter. -/
def Navigate (dispatch : String → DispatchOutcome) (uri : String) : ToolResult :=
  match dispatch uri with
  | .ok => .ok ("Successfully navigated to URI: " ++ uri)
  | .raises e => .err e

/-! ## Current-location capability (`get_current_location`, lines 674–686) -/

/-- Outcome of `AndroidDevice().get_current_location(provider, prompt)`:
a raw JSON string, or an exception whose `str()` is `msg`. -/
inductive LocOutcome where
  | ok (result : String)
  | raises (msg : String)

/-- The permission-prompt string passed to the device (the source file
contains these exact codepoints, a mis-encoded map emoji). -/
def LOCATION_PROMPT : String :=
  "üó∫Ô∏è Baidu Maps Plugin requesting location\n"

/-- The `get_current_location` tool: returns the capability's raw result
unchanged, or on any exception a JSON-formatted error *string* (not the
uniform envelope).  Return type is `String`, unlike every other tool. -/
def get_current_location (cap : Option String → String → LocOutcome)
    (provider : Option String) : String :=
  match cap provider LOCATION_PROMPT with
  | .ok s => s
  | .raises e =>
    "\x7b\"success\": false, \"error\": \"Failed to get current location: " ++ e ++ "\"\x7d"

/-! ## Tool plumbing

A tool's early-return validation sequence is embedded as the list of its
check results in source order; `runChecks` returns the first error with an
empty dispatch trace, and otherwise runs the continuation (which builds
the URI and calls the Navigator exactly once). -/

/-- First `some` in a list of check results (the first failing
validation, in source order). -/
def firstSome : List (Option ToolResult) → Option ToolResult
  | [] => none
  | some e :: _ => some e
  | none :: r => firstSome r

/-- Early-return plumbing shared by all tools. -/
def runChecks (cs : List (Option ToolResult)) (k : ToolResult × List String) :
    ToolResult × List String :=
  match firstSome cs with
  | some e => (e, [])
  | none => k

/-- Lift an optional string argument to its Python value. -/
def optStr : Option String → PyVal
  | some s => .str s
  | none => .null

/-- Lift an optional integer argument to its Python value. -/
def optInt : Option Int → PyVal
  | some n => .int n
  | none => .null

/-- Python truthiness of an `Optional[str]` (`not x`): `None` and the
empty string are falsy. -/
def pyTruthyOptStr : Option String → Bool
  | none => false
  | some s => !(s = "")

/-! ## Way-point JSON validation (`baidumap_plan_route` lines 446–476,
`baidumap_start_driving_navigation` lines 528–553)

`json.loads` is an external stdlib call; it is modelled as a parameter
`loads : String → Option PyVal` (`none` = `JSONDecodeError`).  The shape
checks after parsing are embedded exactly: the route-planning variant
checks key presence *and* field types (with Python's `isinstance`, under
which `bool` counts as `int`); the driving-navigation variant checks key
presence only. -/

def viaJsonMsg : String :=
  "Invalid via_points_json format. It should be a valid JSON string."

def viaListMsg : String :=
  "Invalid via_points_json format. It should be a list of dictionaries."

def viaDictMsg : String :=
  "Invalid via_points_json format. Each point should be a dictionary."

def viaKeysMsg : String :=
  "Invalid via_points_json format. Each point should contain \x27name\x27, \x27lat\x27, and \x27lng\x27 keys."

def viaTypesMsg : String :=
  "Invalid via_points_json format. \x27name\x27 should be a string, and \x27lat\x27 and \x27lng\x27 should be numbers."

/-- Per-point check of `baidumap_plan_route`: dictionary, keys present,
`name` a `str` and `lat`/`lng` instances of `(int, float)`. -/
def checkViaPointRoute (p : PyVal) : Option ToolResult :=
  match p with
  | .dict fs =>
    if !(hasKey fs "name") || !(hasKey fs "lat") || !(hasKey fs "lng") then
      some (.err viaKeysMsg)
    else if !(isPyStr ((dictGet fs "name").getD .null)) ||
            !(isPyNumber ((dictGet fs "lat").getD .null)) ||
            !(isPyNumber ((dictGet fs "lng").getD .null)) then
      some (.err viaTypesMsg)
    else none
  | _ => some (.err viaDictMsg)

/-- The `for point in via_points_json` loop of `baidumap_plan_route`. -/
def viaPointsCheckRoute (j : PyVal) : Option ToolResult :=
  match j with
  | .list pts => firstSome (pts.map checkViaPointRoute)
  | _ => some (.err viaListMsg)

/-- Per-point check of `baidumap_start_driving_navigation`: dictionary and
key presence only — no type check exists in the source. -/
def checkViaPointNavi (p : PyVal) : Option ToolResult :=
  match p with
  | .dict fs =>
    if !(hasKey fs "name") || !(hasKey fs "lat") || !(hasKey fs "lng") then
      some (.err viaKeysMsg)
    else none
  | _ => some (.err viaDictMsg)

/-- The `for point in via_points_json` loop of
`baidumap_start_driving_navigation`. -/
def viaPointsCheckNavi (j : PyVal) : Option ToolResult :=
  match j with
  | .list pts => firstSome (pts.map checkViaPointNavi)
  | _ => some (.err viaListMsg)

/-- The complete via-points validation of `baidumap_plan_route` for a
supplied argument: parse, then shape-check. -/
def planRouteViaValidation (loads : String → Option PyVal) (s : String) : Option ToolResult :=
  match loads s with
  | none => some (.err viaJsonMsg)
  | some j => viaPointsCheckRoute j

/-- The complete via-points validation of
`baidumap_start_driving_navigation` for a supplied argument. -/
def naviViaValidation (loads : String → Option PyVal) (s : String) : Option ToolResult :=
  match loads s with
  | none => some (.err viaJsonMsg)
  | some j => viaPointsCheckNavi j

example : viaPointsCheckRoute
    (.list [.dict [("name", .str "A"), ("lat", .float "22.1"), ("lng", .float "114.1")]]) =
    none := by decide
example : viaPointsCheckRoute (.list [.dict [("name", .str "A")]]) =
    some (.err viaKeysMsg) := by decide
example : viaPointsCheckRoute (.str "x") = some (.err viaListMsg) := by decide

/-! ## Tool operations

Each tool takes the external dispatch capability first, then its
arguments with the types of the Python signature (`Optional[...]`
becomes `Option ...`).  `<tool>_checks` lists the validation results in
the exact order in which the source performs them; `<tool>_validation`
is the first failure of that sequence; the tool itself returns its
envelope together with the list of URIs dispatched. -/

def show_map_checks (center bounds : Option String) (zoom : Option Int)
    (traffic : Option String) (coord_type : String) : List (Option ToolResult) :=
  [ if !(pyTruthyOptStr center) && !(pyTruthyOptStr bounds) then
      some (.err "Either \x27center\x27 or \x27bounds\x27 must be provided for showing the map.")
    else none,
    match center with | some c => validate_lat_lng_format c "center" | none => none,
    match bounds with | some b => validate_bounds_format b "bounds" | none => none,
    validate_zoom_level (optInt zoom),
    validate_traffic (optStr traffic),
    validate_coord_type coord_type ]

def show_map_validation (center bounds : Option String) (zoom : Option Int)
    (traffic : Option String) (coord_type : String) : Option ToolResult :=
  firstSome (show_map_checks center bounds zoom traffic coord_type)

def show_map_params (center bounds : Option String) (zoom : Option Int)
    (traffic : Option String) (coord_type : String) : List (String × PyVal) :=
  [("center", optStr center), ("bounds", optStr bounds), ("zoom", optInt zoom),
   ("traffic", optStr traffic), ("coord_type", .str coord_type), ("src", .str DEFAULT_SRC)]

/-- `baidumap_show_map` (lines 216–260). -/
def baidumap_show_map (dispatch : String → DispatchOutcome)
    (center bounds : Option String) (zoom : Option Int)
    (traffic : Option String) (coord_type : String) : ToolResult × List String :=
  runChecks (show_map_checks center bounds zoom traffic coord_type)
    (let uri := build_baidu_uri "show" (show_map_params center bounds zoom traffic coord_type)
     (Navigate dispatch uri, [uri]))

def add_custom_marker_checks (location : String) (zoom : Option Int)
    (traffic : Option String) (coord_type : String) : List (Option ToolResult) :=
  [ validate_lat_lng_format location "location",
    validate_zoom_level (optInt zoom),
    validate_traffic (optStr traffic),
    validate_coord_type coord_type ]

def add_custom_marker_validation (location : String) (zoom : Option Int)
    (traffic : Option String) (coord_type : String) : Option ToolResult :=
  firstSome (add_custom_marker_checks location zoom traffic coord_type)

/-- `baidumap_add_custom_marker` (lines 270–299). -/
def baidumap_add_custom_marker (dispatch : String → DispatchOutcome)
    (location title : String) (content : Option String) (zoom : Option Int)
    (traffic : Option String) (coord_type : String) : ToolResult × List String :=
  runChecks (add_custom_marker_checks location zoom traffic coord_type)
    (let uri := build_baidu_uri "marker"
       [("location", .str location), ("title", .str title), ("content", optStr content),
        ("zoom", optInt zoom), ("traffic", optStr traffic),
        ("coord_type", .str coord_type), ("src", .str DEFAULT_SRC)]
     (Navigate dispatch uri, [uri]))

def geocode_address_checks (address : String) : List (Option ToolResult) :=
  [ if (pyStrip address.toList).isEmpty then
      some (.err "Address cannot be an empty string.")
    else none ]

def geocode_address_validation (address : String) : Option ToolResult :=
  firstSome (geocode_address_checks address)

/-- `baidumap_geocode_address` (lines 305–322); the `is None` and
`isinstance` guards are statically true for a `str` argument. -/
def baidumap_geocode_address (dispatch : String → DispatchOutcome)
    (address : String) : ToolResult × List String :=
  runChecks (geocode_address_checks address)
    (let uri := build_baidu_uri "geocoder"
       [("address", .str address), ("src", .str DEFAULT_SRC)]
     (Navigate dispatch uri, [uri]))

def reverse_geocode_checks (location : String) (zoom : Option Int)
    (coord_type : String) : List (Option ToolResult) :=
  [ validate_lat_lng_format location "location",
    validate_zoom_level (optInt zoom),
    validate_coord_type coord_type ]

def reverse_geocode_validation (location : String) (zoom : Option Int)
    (coord_type : String) : Option ToolResult :=
  firstSome (reverse_geocode_checks location zoom coord_type)

/-- `baidumap_reverse_geocode_location` (lines 328–349). -/
def baidumap_reverse_geocode_location (dispatch : String → DispatchOutcome)
    (location : String) (zoom : Option Int) (coord_type : String) :
    ToolResult × List String :=
  runChecks (reverse_geocode_checks location zoom coord_type)
    (let uri := build_baidu_uri "geocoder"
       [("location", .str location), ("coord_type", .str coord_type),
        ("zoom", optInt zoom), ("src", .str DEFAULT_SRC)]
     (Navigate dispatch uri, [uri]))

def poi_search_checks (query : String) (location bounds : Option String)
    (radius : Option Int) (coord_type : String) : List (Option ToolResult) :=
  [ if (pyStrip query.toList).isEmpty then
      some (.err "Query cannot be an empty string.")
    else none,
    match location with
    | some l => validate_location_field_format l "location"
    | none => none,
    match bounds with | some b => validate_bounds_format b "bounds" | none => none,
    match radius with
    | some r => if r < 0 then some (.err "Radius cannot be negative.") else none
    | none => none,
    validate_coord_type coord_type ]

def poi_search_validation (query : String) (location bounds : Option String)
    (radius : Option Int) (coord_type : String) : Option ToolResult :=
  firstSome (poi_search_checks query location bounds radius coord_type)

/-- `baidumap_poi_search` (lines 355–393). -/
def baidumap_poi_search (dispatch : String → DispatchOutcome)
    (query : String) (region location bounds : Option String)
    (radius : Option Int) (coord_type : String) : ToolResult × List String :=
  runChecks (poi_search_checks query location bounds radius coord_type)
    (let uri := build_baidu_uri "place/search"
       [("query", .str query), ("region", optStr region), ("location", optStr location),
        ("bounds", optStr bounds), ("radius", optInt radius),
        ("coord_type", .str coord_type), ("src", .str DEFAULT_SRC)]
     (Navigate dispatch uri, [uri]))

def plan_route_pre_checks (origin destination mode coord_type : String)
    (sy index target : Option Int) (car_type : Option String) :
    List (Option ToolResult) :=
  [ validate_location_field_format origin "origin",
    validate_location_field_format destination "destination",
    if !(["transit", "driving", "walking", "riding", "truck", "neweng"].contains mode) then
      some (.err ("Invalid mode \x27" ++ mode ++
        "\x27. It should be one of \x27transit\x27, \x27driving\x27, \x27walking\x27, \x27riding\x27, \x27truck\x27, or \x27neweng\x27."))
    else none,
    validate_coord_type coord_type,
    match sy with
    | some n =>
      if n < 0 || n > 6 then
        some (.err ("Invalid sy value \x27" ++ toString n ++ "\x27. It should be between 0 and 6."))
      else none
    | none => none,
    match index with
    | some n =>
      if n < 0 then
        some (.err ("Invalid index value \x27" ++ toString n ++ "\x27. It should be non-negative."))
      else none
    | none => none,
    match target with
    | some n =>
      if !(n = 0 || n = 1) then
        some (.err ("Invalid target value \x27" ++ toString n ++
          "\x27. It should be 0 or 1. 0 for map, 1 for detail."))
      else none
    | none => none,
    match car_type with
    | some s =>
      if !(["BLK", "TIME", "DIS", "FEE", "HIGHWAY", "DEFAULT"].contains s) then
        some (.err ("Invalid car_type value \x27" ++ s ++
          "\x27. It should be one of \x27BLK\x27, \x27TIME\x27, \x27DIS\x27, \x27FEE\x27, \x27HIGHWAY\x27, or \x27DEFAULT\x27."))
      else none
    | none => none ]

/-- All validation of `baidumap_plan_route` in source order (the
via-points parse-and-check runs last). -/
def plan_route_validation (loads : String → Option PyVal)
    (origin destination mode coord_type : String)
    (sy index target : Option Int) (car_type : Option String)
    (via_points_json : Option String) : Option ToolResult :=
  match firstSome (plan_route_pre_checks origin destination mode coord_type sy index target car_type) with
  | some e => some e
  | none =>
    match via_points_json with
    | some s => planRouteViaValidation loads s
    | none => none

def plan_route_params (origin destination mode coord_type : String)
    (region origin_region destination_region origin_uid destination_uid : Option String)
    (sy index target : Option Int) (car_type : Option String)
    (via : PyVal) : List (String × PyVal) :=
  [("origin", .str origin), ("destination", .str destination), ("mode", .str mode),
   ("coord_type", .str coord_type), ("region", optStr region),
   ("origin_region", optStr origin_region), ("destination_region", optStr destination_region),
   ("origin_uid", optStr origin_uid), ("destination_uid", optStr destination_uid),
   ("sy", optInt sy), ("index", optInt index), ("target", optInt target),
   ("car_type", optStr car_type), ("viaPoints", via), ("src", .str DEFAULT_SRC)]

/-- `baidumap_plan_route` (lines 399–498).  When `via_points_json` parses,
the *parsed* Python value is what ends up in the parameter dictionary
(the source rebinds the variable to `json.loads(...)`). -/
def baidumap_plan_route (dispatch : String → DispatchOutcome)
    (loads : String → Option PyVal)
    (origin destination mode coord_type : String)
    (region origin_region destination_region origin_uid destination_uid : Option String)
    (sy index target : Option Int) (car_type : Option String)
    (via_points_json : Option String) : ToolResult × List String :=
  runChecks (plan_route_pre_checks origin destination mode coord_type sy index target car_type)
    (match via_points_json with
     | some s =>
       match loads s with
       | none => (.err viaJsonMsg, [])
       | some j =>
         match viaPointsCheckRoute j with
         | some e => (e, [])
         | none =>
           let uri := build_baidu_uri "direction"
             (plan_route_params origin destination mode coord_type region origin_region
               destination_region origin_uid destination_uid sy index target car_type j)
           (Navigate dispatch uri, [uri])
     | none =>
       let uri := build_baidu_uri "direction"
         (plan_route_params origin destination mode coord_type region origin_region
           destination_region origin_uid destination_uid sy index target car_type .null)
       (Navigate dispatch uri, [uri]))

/-- Mis-encoded Chinese tail of the `nav_type` error message, with the
exact codepoints committed in the source file. -/
def navTypeMsgTail : String :=
  "BLK:Ë∫≤ÈÅøÊã•Â†µ(Ëá™È©æ); TIME:ÊúÄÁü≠Êó∂Èó¥(Ëá™È©æ); DIS:ÊúÄÁü≠Ë∑ØÁ®ã(Ëá™È©æ); FEE:Â∞ëËµ∞È´òÈÄü(Ëá™È©æ); HIGHWAY:È´òÈÄü‰ºòÂÖà; DEFAULT:Êé®ËçêÔºàËá™È©æÔºåÂú∞Âõæapp‰∏çÈÄâÊã©ÂÅèÂ•ΩÔºâ;"

def driving_nav_pre_checks (query : String) (location uid nav_type : Option String) :
    List (Option ToolResult) :=
  [ if (pyStrip query.toList).isEmpty then
      some (.err "Query cannot be an empty string.")
    else none,
    match location with
    | some l => validate_lat_lng_format l "location"
    | none => none,
    -- `if uid is not None and not isinstance(uid, str)` is statically
    -- false for an `Optional[str]` argument.
    match nav_type with
    | some s =>
      if !(["BLK", "TIME", "DIS", "FEE", "HIGHWAY", "DEFAULT"].contains s) then
        some (.err ("Invalid nav_type value \x27" ++ s ++
          "\x27. It should be one of \x27BLK\x27, \x27TIME\x27, \x27DIS\x27, \x27FEE\x27, \x27HIGHWAY\x27, or \x27DEFAULT\x27. " ++
          navTypeMsgTail))
      else none
    | none => none ]

/-- All validation of `baidumap_start_driving_navigation` in source order:
the `coord_type` check runs *after* the via-points check there. -/
def driving_nav_validation (loads : String → Option PyVal)
    (query : String) (location uid nav_type : Option String)
    (via_points_json : Option String) (coord_type : String) : Option ToolResult :=
  match firstSome (driving_nav_pre_checks query location uid nav_type) with
  | some e => some e
  | none =>
    match (match via_points_json with
           | some s => naviViaValidation loads s
           | none => none) with
    | some e => some e
    | none => validate_coord_type coord_type

def driving_nav_params (query : String) (location uid nav_type : Option String)
    (via : PyVal) (coord_type : String) : List (String × PyVal) :=
  [("query", .str query), ("location", optStr location), ("uid", optStr uid),
   ("type", optStr nav_type), ("viaPoints", via),
   ("coord_type", .str coord_type), ("src", .str DEFAULT_SRC)]

/-- `baidumap_start_driving_navigation` (lines 504–569). -/
def baidumap_start_driving_navigation (dispatch : String → DispatchOutcome)
    (loads : String → Option PyVal)
    (query : String) (location uid nav_type via_points_json : Option String)
    (coord_type : String) : ToolResult × List String :=
  runChecks (driving_nav_pre_checks query location uid nav_type)
    (match via_points_json with
     | some s =>
       match loads s with
       | none => (.err viaJsonMsg, [])
       | some j =>
         match viaPointsCheckNavi j with
         | some e => (e, [])
         | none =>
           runChecks [validate_coord_type coord_type]
             (let uri := build_baidu_uri "navi"
                (driving_nav_params query location uid nav_type j coord_type)
              (Navigate dispatch uri, [uri]))
     | none =>
       runChecks [validate_coord_type coord_type]
         (let uri := build_baidu_uri "navi"
            (driving_nav_params query location uid nav_type .null coord_type)
          (Navigate dispatch uri, [uri])))

def biking_nav_checks (origin destination coord_type : String) :
    List (Option ToolResult) :=
  [ validate_lat_lng_format origin "origin",
    validate_lat_lng_format destination "destination",
    validate_coord_type coord_type ]

def biking_nav_validation (origin destination coord_type : String) : Option ToolResult :=
  firstSome (biking_nav_checks origin destination coord_type)

/-- `baidumap_start_biking_navigation` (lines 575–596). -/
def baidumap_start_biking_navigation (dispatch : String → DispatchOutcome)
    (origin destination coord_type : String) : ToolResult × List String :=
  runChecks (biking_nav_checks origin destination coord_type)
    (let uri := build_baidu_uri "bikenavi"
       [("origin", .str origin), ("destination", .str destination),
        ("coord_type", .str coord_type), ("src", .str DEFAULT_SRC)]
     (Navigate dispatch uri, [uri]))

/-- `baidumap_start_walking_navigation` (lines 602–626); identical
validation, path `walknavi`. -/
def baidumap_start_walking_navigation (dispatch : String → DispatchOutcome)
    (origin destination coord_type : String) : ToolResult × List String :=
  runChecks (biking_nav_checks origin destination coord_type)
    (let uri := build_baidu_uri "walknavi"
       [("origin", .str origin), ("destination", .str destination),
        ("coord_type", .str coord_type), ("src", .str DEFAULT_SRC)]
     (Navigate dispatch uri, [uri]))

/-- `baidumap_show_poi_detail` (lines 632–645): no validation. -/
def baidumap_show_poi_detail (dispatch : String → DispatchOutcome)
    (uid : String) (show_type : Option String) : ToolResult × List String :=
  let uri := build_baidu_uri "place/detail"
    [("uid", .str uid), ("show_type", optStr show_type), ("src", .str DEFAULT_SRC)]
  (Navigate dispatch uri, [uri])

/-- `baidumap_open_news_assistant` (lines 651–662): no validation. -/
def baidumap_open_news_assistant (dispatch : String → DispatchOutcome)
    (cityid : Option String) : ToolResult × List String :=
  let uri := build_baidu_uri "newsassistant"
    [("cityid", optStr cityid), ("src", .str DEFAULT_SRC)]
  (Navigate dispatch uri, [uri])

/-! ## Generic lemmas about the plumbing -/

theorem runChecks_of_err {cs : List (Option ToolResult)} {e : ToolResult}
    (k : ToolResult × List String) (h : firstSome cs = some e) :
    runChecks cs k = (e, []) := by
  simp [runChecks, h]

theorem runChecks_of_none {cs : List (Option ToolResult)}
    (k : ToolResult × List String) (h : firstSome cs = none) :
    runChecks cs k = k := by
  simp [runChecks, h]

theorem runChecks_trace_le_one (cs : List (Option ToolResult))
    (k : ToolResult × List String) (hk : k.2.length ≤ 1) :
    (runChecks cs k).2.length ≤ 1 := by
  unfold runChecks
  cases firstSome cs <;> simp [hk]

theorem joinAmp_concat_cons (x : String) (xs : List String) (y : String) :
    joinAmp (x :: (xs ++ [y])) = joinAmp (x :: xs) ++ "&" ++ y := by
  induction xs generalizing x with
  | nil => rfl
  | cons z zs ih =>
    have h1 : joinAmp (x :: ((z :: zs) ++ [y])) = x ++ "&" ++ joinAmp (z :: (zs ++ [y])) := rfl
    have h2 : joinAmp (x :: z :: zs) = x ++ "&" ++ joinAmp (z :: zs) := rfl
    rw [h1, ih z, h2]
    simp [String.append_assoc]

theorem encodePair_length (kv : String × PyVal) : 1 ≤ (encodePair kv).length := by
  simp [encodePair, String.length_append, show ("=" : String).length = 1 from rfl]
  omega

theorem joinAmp_head_length (x : String) (xs : List String) :
    x.length ≤ (joinAmp (x :: xs)).length := by
  cases xs with
  | nil => simp [joinAmp]
  | cons y r =>
    simp [joinAmp, String.length_append]
    omega

theorem urlencode_cons_ne_empty (kv : String × PyVal) (l : List (String × PyVal)) :
    urlencode (kv :: l) ≠ "" := by
  intro h
  have h1 : 1 ≤ (urlencode (kv :: l)).length := by
    calc 1 ≤ (encodePair kv).length := encodePair_length kv
    _ ≤ (joinAmp (encodePair kv :: l.map encodePair)).length := joinAmp_head_length _ _
    _ = (urlencode (kv :: l)).length := by simp [urlencode]
  rw [h] at h1
  simp at h1

theorem filterNone_append (l m : List (String × PyVal)) :
    filterNone (l ++ m) = filterNone l ++ filterNone m := by
  simp [filterNone, List.filter_append]

/-- Every parameter dictionary in the module ends with the constant
`("src", DEFAULT_SRC)` entry; the resulting URI therefore always has a
query part, and that query ends with `src=andr.xiaomi.assistant` as its
last `&`-separated component. -/
theorem build_uri_src (path : String) (l : List (String × PyVal)) :
    ∃ q pre, build_baidu_uri path (l ++ [("src", PyVal.str DEFAULT_SRC)]) =
        BAIDUMAP_NATIVE_BASE_URL ++ path ++ "?" ++ q ∧
      q = pre ++ "src=andr.xiaomi.assistant" ∧
      (pre = "" ∨ ∃ r, pre = r ++ "&") := by
  have hsrc : encodePair ("src", PyVal.str DEFAULT_SRC) = "src=andr.xiaomi.assistant" := by decide
  have hf : filterNone (l ++ [("src", PyVal.str DEFAULT_SRC)]) =
      filterNone l ++ [("src", PyVal.str DEFAULT_SRC)] := by
    rw [filterNone_append]; rfl
  cases hm : filterNone l with
  | nil =>
    refine ⟨"src=andr.xiaomi.assistant", "", ?_, by simp, Or.inl rfl⟩
    rw [build_baidu_uri, hf, hm]
    simp only [List.nil_append]
    rw [show urlencode [("src", PyVal.str DEFAULT_SRC)] = "src=andr.xiaomi.assistant" by
      simp [urlencode, joinAmp, hsrc]]
    rw [if_neg (by decide)]
  | cons kv rest =>
    refine ⟨urlencode (kv :: rest) ++ "&" ++ "src=andr.xiaomi.assistant",
      urlencode (kv :: rest) ++ "&", ?_, rfl, Or.inr ⟨urlencode (kv :: rest), rfl⟩⟩
    rw [build_baidu_uri, hf, hm]
    have he : urlencode (kv :: (rest ++ [("src", PyVal.str DEFAULT_SRC)])) =
        urlencode (kv :: rest) ++ "&" ++ "src=andr.xiaomi.assistant" := by
      simp only [urlencode, List.map_append, List.map_cons, List.map_nil]
      rw [joinAmp_concat_cons, hsrc]
    simp only [List.cons_append]
    rw [he]
    rw [if_neg ?_]
    intro hq
    have h1 : 1 ≤ (urlencode (kv :: rest) ++ "&" ++ "src=andr.xiaomi.assistant").length := by
      simp [String.length_append, show ("&" : String).length = 1 from rfl]
      omega
    rw [hq] at h1
    simp at h1

/-! ## Claim theorems -/

/-- C2: `build_baidu_uri` is a pure function of `(path, params)`: it
drops every `None`-valued entry, percent-encodes the surviving key/value
pairs, and returns `baidumap://map/<path>`, followed by `?<query>`
exactly when at least one parameter survives filtering; two calls with
equal path and equal filtered parameter lists yield the same string.
The last conjunct checks the spec's worked example, comma encoded as
`%2C`. -/
theorem claim_c2_build_uri :
    (∀ path params, filterNone params = [] →
      build_baidu_uri path params = BAIDUMAP_NATIVE_BASE_URL ++ path) ∧
    (∀ path params, filterNone params ≠ [] →
      urlencode (filterNone params) ≠ "" ∧
      build_baidu_uri path params =
        BAIDUMAP_NATIVE_BASE_URL ++ path ++ "?" ++ urlencode (filterNone params)) ∧
    (∀ path p1 p2, filterNone p1 = filterNone p2 →
      build_baidu_uri path p1 = build_baidu_uri path p2) ∧
    (∀ params (k : String) (v : PyVal),
      (k, v) ∈ filterNone params ↔ ((k, v) ∈ params ∧ isNull v = false)) ∧
    build_baidu_uri "show"
      [("center", .str "40.057406,116.296440"), ("zoom", .int 13),
       ("bounds", .null), ("src", .str "app.id")] =
      "baidumap://map/show?center=40.057406%2C116.296440&zoom=13&src=app.id" := by
  refine ⟨?_, ?_, ?_, ?_, by decide⟩
  · intro path params h
    rw [build_baidu_uri, h]
    rfl
  · intro path params h
    rcases hm : filterNone params with _ | ⟨kv, rest⟩
    · exact absurd hm h
    · exact ⟨urlencode_cons_ne_empty kv rest,
        by rw [build_baidu_uri, hm, if_neg (urlencode_cons_ne_empty kv rest)]⟩
  · intro path p1 p2 h
    rw [build_baidu_uri, build_baidu_uri, h]
  · intro params k v
    simp [filterNone, List.mem_filter]

/-- Witness for C2 at concrete inputs. -/
theorem claim_c2_build_uri_witness :
    build_baidu_uri "navi" [("x", PyVal.null)] = BAIDUMAP_NATIVE_BASE_URL ++ "navi" ∧
    build_baidu_uri "show" [("a", PyVal.int 1)] =
      BAIDUMAP_NATIVE_BASE_URL ++ "show" ++ "?" ++ urlencode (filterNone [("a", PyVal.int 1)]) ∧
    build_baidu_uri "show" [("a", PyVal.null)] = build_baidu_uri "show" [] :=
  ⟨claim_c2_build_uri.1 "navi" [("x", PyVal.null)] rfl,
   (claim_c2_build_uri.2.1 "show" [("a", PyVal.int 1)]
     (by exact fun h => List.cons_ne_nil ("a", PyVal.int 1) [] h)).2,
   claim_c2_build_uri.2.2.1 "show" [("a", PyVal.null)] [] rfl⟩

/-- C6: the Navigator converts the external open-view capability's outcome
into the uniform envelope: on success `{success: true, message}` with the
URI inside the message, on any raised failure `{success: false, error}`
carrying the exception text; it is a total function, so no fault
propagates. -/
theorem claim_c6_navigate :
    ∀ (dispatch : String → DispatchOutcome) (uri : String),
    (dispatch uri = .ok →
      Navigate dispatch uri = .ok ("Successfully navigated to URI: " ++ uri) ∧
      ∃ pre post, "Successfully navigated to URI: " ++ uri = pre ++ uri ++ post) ∧
    (∀ e, dispatch uri = .raises e → Navigate dispatch uri = .err e) := by
  intro dispatch uri
  constructor
  · intro h
    refine ⟨by rw [Navigate, h], "Successfully navigated to URI: ", "", by simp⟩
  · intro e h
    rw [Navigate, h]

/-- Witness for C6: a succeeding and a failing dispatch capability. -/
theorem claim_c6_navigate_witness :
    Navigate (fun _ => DispatchOutcome.ok) "baidumap://map/show" =
      .ok ("Successfully navigated to URI: " ++ "baidumap://map/show") ∧
    Navigate (fun _ => DispatchOutcome.raises "no handler app") "baidumap://map/show" =
      .err "no handler app" :=
  ⟨((claim_c6_navigate (fun _ => DispatchOutcome.ok) "baidumap://map/show").1 rfl).1,
   (claim_c6_navigate (fun _ => DispatchOutcome.raises "no handler app")
     "baidumap://map/show").2 "no handler app" rfl⟩

/-- C7: `get_current_location` never builds a URI; it hands `provider`
and the fixed prompt to the external location capability and returns the
raw string unchanged on success; on any raised failure it returns a
JSON-formatted error *string* (its return type is `String`, not the
`ToolResult` envelope of every other operation), and never raises. -/
theorem claim_c7_get_current_location :
    ∀ (cap : Option String → String → LocOutcome) (provider : Option String),
    (∀ s, cap provider LOCATION_PROMPT = .ok s → get_current_location cap provider = s) ∧
    (∀ e, cap provider LOCATION_PROMPT = .raises e →
      get_current_location cap provider =
        "\x7b\"success\": false, \"error\": \"Failed to get current location: " ++ e ++ "\"\x7d") := by
  intro cap provider
  constructor
  · intro s h
    rw [get_current_location, h]
  · intro e h
    rw [get_current_location, h]

/-- Witness for C7 at concrete capabilities. -/
theorem claim_c7_get_current_location_witness :
    get_current_location (fun _ _ => LocOutcome.ok
      "\x7b\"latitude\": 39.9, \"longitude\": 116.3\x7d") (some "network") =
      "\x7b\"latitude\": 39.9, \"longitude\": 116.3\x7d" ∧
    get_current_location (fun _ _ => LocOutcome.raises "permission denied") (some "gps") =
      "\x7b\"success\": false, \"error\": \"Failed to get current location: permission denied\"\x7d" :=
  ⟨(claim_c7_get_current_location (fun _ _ => LocOutcome.ok
      "\x7b\"latitude\": 39.9, \"longitude\": 116.3\x7d") (some "network")).1 _ rfl,
   (claim_c7_get_current_location (fun _ _ => LocOutcome.raises "permission denied")
      (some "gps")).2 "permission denied" rfl⟩

/-- C8: calling the map-show operation with neither `center` nor `bounds`
returns the failure envelope and dispatches nothing, for every dispatch
capability and every remaining argument. -/
theorem claim_c8_show_map_requires_viewport :
    ∀ (dispatch : String → DispatchOutcome) (zoom : Option Int)
      (traffic : Option String) (coord_type : String),
    baidumap_show_map dispatch none none zoom traffic coord_type =
      (.err "Either \x27center\x27 or \x27bounds\x27 must be provided for showing the map.", []) := by
  intro dispatch zoom traffic coord_type
  have hc : show_map_checks none none zoom traffic coord_type =
      some (.err "Either \x27center\x27 or \x27bounds\x27 must be provided for showing the map.") ::
      [none, none, validate_zoom_level (optInt zoom), validate_traffic (optStr traffic),
       validate_coord_type coord_type] := rfl
  rw [baidumap_show_map, hc]
  rfl

/-- C10: null handling is asymmetric in the map-show operation: the
traffic validator accepts `None`, while the zoom validator rejects every
value whose Python type is neither `int` nor `str` (`bool` being an `int`
subclass), `None` included; passing `zoom=None` to the tool therefore
returns a failure envelope with no dispatch, although `zoom` is declared
optional. -/
theorem claim_c10_zoom_null_asymmetry :
    validate_traffic PyVal.null = none ∧
    (∀ v : PyVal, isPyIntOrStr v = false → ∃ m, validate_zoom_level v = some (.err m)) ∧
    validate_zoom_level PyVal.null =
      some (.err "Invalid zoom level type \x27<class \x27NoneType\x27>\x27. It should be an integer or string.") ∧
    (∀ (dispatch : String → DispatchOutcome) (traffic : Option String) (coord_type : String),
      baidumap_show_map dispatch (some "40.057406,116.296440") none none traffic coord_type =
        (.err "Invalid zoom level type \x27<class \x27NoneType\x27>\x27. It should be an integer or string.", [])) := by
  refine ⟨rfl, ?_, rfl, ?_⟩
  · intro v h
    cases v <;> simp [isPyIntOrStr] at h <;> exact ⟨_, rfl⟩
  · intro dispatch traffic coord_type
    have hc : show_map_checks (some "40.057406,116.296440") none none traffic coord_type =
        none :: none :: none ::
        some (.err "Invalid zoom level type \x27<class \x27NoneType\x27>\x27. It should be an integer or string.") ::
        [validate_traffic (optStr traffic), validate_coord_type coord_type] := rfl
    rw [baidumap_show_map, hc]
    rfl

/-- Witness for C10's universally quantified zoom-rejection conjunct at a
concrete non-int, non-str value. -/
theorem claim_c10_zoom_null_asymmetry_witness :
    ∃ m, validate_zoom_level (PyVal.float "1.5") = some (.err m) :=
  claim_c10_zoom_null_asymmetry.2.1 (PyVal.float "1.5") rfl

/-- C1: for every tool operation and every argument assignment, if the
operation's validation sequence (in source order) rejects, the tool
returns exactly that first failure and dispatches nothing — the URI is
neither built nor handed to the Navigator; and in every run the
Navigator is invoked at most once.  One conjunct pair per tool; the two
tools without validators contribute only the at-most-once bound. -/
theorem claim_c1_validation_short_circuits :
    (∀ d center bounds zoom traffic coord_type e,
      show_map_validation center bounds zoom traffic coord_type = some e →
      baidumap_show_map d center bounds zoom traffic coord_type = (e, [])) ∧
    (∀ d center bounds zoom traffic coord_type,
      (baidumap_show_map d center bounds zoom traffic coord_type).2.length ≤ 1) ∧
    (∀ d location title content zoom traffic coord_type e,
      add_custom_marker_validation location zoom traffic coord_type = some e →
      baidumap_add_custom_marker d location title content zoom traffic coord_type = (e, [])) ∧
    (∀ d location title content zoom traffic coord_type,
      (baidumap_add_custom_marker d location title content zoom traffic coord_type).2.length ≤ 1) ∧
    (∀ d address e,
      geocode_address_validation address = some e →
      baidumap_geocode_address d address = (e, [])) ∧
    (∀ d address, (baidumap_geocode_address d address).2.length ≤ 1) ∧
    (∀ d location zoom coord_type e,
      reverse_geocode_validation location zoom coord_type = some e →
      baidumap_reverse_geocode_location d location zoom coord_type = (e, [])) ∧
    (∀ d location zoom coord_type,
      (baidumap_reverse_geocode_location d location zoom coord_type).2.length ≤ 1) ∧
    (∀ d query region location bounds radius coord_type e,
      poi_search_validation query location bounds radius coord_type = some e →
      baidumap_poi_search d query region location bounds radius coord_type = (e, [])) ∧
    (∀ d query region location bounds radius coord_type,
      (baidumap_poi_search d query region location bounds radius coord_type).2.length ≤ 1) ∧
    (∀ d loads origin destination mode coord_type region origin_region destination_region
        origin_uid destination_uid sy index target car_type via_points_json e,
      plan_route_validation loads origin destination mode coord_type sy index target
        car_type via_points_json = some e →
      baidumap_plan_route d loads origin destination mode coord_type region origin_region
        destination_region origin_uid destination_uid sy index target car_type
        via_points_json = (e, [])) ∧
    (∀ d loads origin destination mode coord_type region origin_region destination_region
        origin_uid destination_uid sy index target car_type via_points_json,
      (baidumap_plan_route d loads origin destination mode coord_type region origin_region
        destination_region origin_uid destination_uid sy index target car_type
        via_points_json).2.length ≤ 1) ∧
    (∀ d loads query location uid nav_type via_points_json coord_type e,
      driving_nav_validation loads query location uid nav_type via_points_json coord_type = some e →
      baidumap_start_driving_navigation d loads query location uid nav_type via_points_json
        coord_type = (e, [])) ∧
    (∀ d loads query location uid nav_type via_points_json coord_type,
      (baidumap_start_driving_navigation d loads query location uid nav_type via_points_json
        coord_type).2.length ≤ 1) ∧
    (∀ d origin destination coord_type e,
      biking_nav_validation origin destination coord_type = some e →
      baidumap_start_biking_navigation d origin destination coord_type = (e, [])) ∧
    (∀ d origin destination coord_type,
      (baidumap_start_biking_navigation d origin destination coord_type).2.length ≤ 1) ∧
    (∀ d origin destination coord_type e,
      biking_nav_validation origin destination coord_type = some e →
      baidumap_start_walking_navigation d origin destination coord_type = (e, [])) ∧
    (∀ d origin destination coord_type,
      (baidumap_start_walking_navigation d origin destination coord_type).2.length ≤ 1) ∧
    (∀ d uid show_type, (baidumap_show_poi_detail d uid show_type).2.length ≤ 1) ∧
    (∀ d cityid, (baidumap_open_news_assistant d cityid).2.length ≤ 1) := by
  refine ⟨?_, ?_, ?_, ?_, ?_, ?_, ?_, ?_, ?_, ?_, ?_, ?_, ?_, ?_, ?_, ?_, ?_, ?_, ?_, ?_⟩
  · intro d c b z t ct e h
    unfold baidumap_show_map
    exact runChecks_of_err _ h
  · intro d c b z t ct
    unfold baidumap_show_map
    exact runChecks_trace_le_one _ _ (by simp)
  · intro d l ti co z t ct e h
    unfold baidumap_add_custom_marker
    exact runChecks_of_err _ h
  · intro d l ti co z t ct
    unfold baidumap_add_custom_marker
    exact runChecks_trace_le_one _ _ (by simp)
  · intro d a e h
    unfold baidumap_geocode_address
    exact runChecks_of_err _ h
  · intro d a
    unfold baidumap_geocode_address
    exact runChecks_trace_le_one _ _ (by simp)
  · intro d l z ct e h
    unfold baidumap_reverse_geocode_location
    exact runChecks_of_err _ h
  · intro d l z ct
    unfold baidumap_reverse_geocode_location
    exact runChecks_trace_le_one _ _ (by simp)
  · intro d q rg l b rd ct e h
    unfold baidumap_poi_search
    exact runChecks_of_err _ h
  · intro d q rg l b rd ct
    unfold baidumap_poi_search
    exact runChecks_trace_le_one _ _ (by simp)
  · intro d loads o dst mo ct rg og dg ou du sy idx tg car via e h
    unfold baidumap_plan_route
    unfold plan_route_validation at h
    cases hp : firstSome (plan_route_pre_checks o dst mo ct sy idx tg car) with
    | some e2 =>
      rw [hp] at h
      simp only [Option.some.injEq] at h
      rw [← h]
      exact runChecks_of_err _ hp
    | none =>
      rw [hp] at h
      rw [runChecks_of_none _ hp]
      cases via with
      | none => simp at h
      | some s =>
        simp only [planRouteViaValidation] at h
        cases hl : loads s with
        | none =>
          rw [hl] at h
          simp only [Option.some.injEq] at h
          simp [hl, ← h]
        | some j =>
          rw [hl] at h
          have h2 : viaPointsCheckRoute j = some e := h
          simp [hl, h2]
  · intro d loads o dst mo ct rg og dg ou du sy idx tg car via
    unfold baidumap_plan_route
    apply runChecks_trace_le_one
    cases via with
    | none => simp
    | some s =>
      cases hls : loads s with
      | none => simp [hls]
      | some j =>
        cases hv : viaPointsCheckRoute j <;> simp [hls, hv]
  · intro d loads q l u nt via ct e h
    unfold baidumap_start_driving_navigation
    unfold driving_nav_validation at h
    cases hp : firstSome (driving_nav_pre_checks q l u nt) with
    | some e2 =>
      rw [hp] at h
      simp only [Option.some.injEq] at h
      rw [← h]
      exact runChecks_of_err _ hp
    | none =>
      rw [hp] at h
      rw [runChecks_of_none _ hp]
      cases via with
      | none =>
        have h2 : validate_coord_type ct = some e := h
        exact runChecks_of_err _ (by rw [h2]; rfl)
      | some s =>
        simp only [naviViaValidation] at h
        cases hl : loads s with
        | none =>
          rw [hl] at h
          simp only [Option.some.injEq] at h
          simp [hl, ← h]
        | some j =>
          rw [hl] at h
          cases hv : viaPointsCheckNavi j with
          | some e2 =>
            have h2 : (match viaPointsCheckNavi j with
                       | some e3 => some e3
                       | none => validate_coord_type ct) = some e := h
            rw [hv] at h2
            simp only [Option.some.injEq] at h2
            subst h2
            simp [hl, hv]
          | none =>
            have h2 : validate_coord_type ct = some e := by
              have h3 : (match viaPointsCheckNavi j with
                         | some e3 => some e3
                         | none => validate_coord_type ct) = some e := h
              rwa [hv] at h3
            simp only [hl, hv]
            exact runChecks_of_err _ (by rw [h2]; rfl)
  · intro d loads q l u nt via ct
    unfold baidumap_start_driving_navigation
    apply runChecks_trace_le_one
    cases via with
    | none => exact runChecks_trace_le_one _ _ (by simp)
    | some s =>
      cases hls : loads s with
      | none => simp [hls]
      | some j =>
        cases hv : viaPointsCheckNavi j with
        | some e2 => simp [hls, hv]
        | none =>
          simp only [hls, hv]
          exact runChecks_trace_le_one _ _ (by simp)
  · intro d o dst ct e h
    unfold baidumap_start_biking_navigation
    exact runChecks_of_err _ h
  · intro d o dst ct
    unfold baidumap_start_biking_navigation
    exact runChecks_trace_le_one _ _ (by simp)
  · intro d o dst ct e h
    unfold baidumap_start_walking_navigation
    exact runChecks_of_err _ h
  · intro d o dst ct
    unfold baidumap_start_walking_navigation
    exact runChecks_trace_le_one _ _ (by simp)
  · intro d u st
    unfold baidumap_show_poi_detail
    simp
  · intro d c
    unfold baidumap_open_news_assistant
    simp

/-- Witness for C1: a failing `center` validation short-circuits
`baidumap_show_map` with that validator's envelope and no dispatch. -/
theorem claim_c1_validation_short_circuits_witness :
    baidumap_show_map (fun _ => DispatchOutcome.ok) (some "abc,def") none (some 13) none "wgs84" =
      (.err (latLngNumMsg "center" "abc,def"), []) :=
  claim_c1_validation_short_circuits.1 (fun _ => DispatchOutcome.ok)
    (some "abc,def") none (some 13) none "wgs84" _ (by decide)

/-- The invariant claimed for every dispatched URI: fixed
`baidumap://map/` prefix, the operation's path, and a query whose last
component is the constant `src` parameter. -/
def hasBaiduSrcUri (path u : String) : Prop :=
  ∃ q pre, u = BAIDUMAP_NATIVE_BASE_URL ++ path ++ "?" ++ q ∧
    q = pre ++ "src=andr.xiaomi.assistant" ∧ (pre = "" ∨ ∃ r, pre = r ++ "&")

theorem build_uri_src_pred (path : String) (l : List (String × PyVal)) :
    hasBaiduSrcUri path (build_baidu_uri path (l ++ [("src", PyVal.str DEFAULT_SRC)])) :=
  build_uri_src path l

/-- C9: every URI a tool hands to the Navigator starts with
`baidumap://map/<path>` for that tool's fixed path segment, and its query
string contains the constant `src=andr.xiaomi.assistant` parameter. -/
theorem claim_c9_uri_prefix_and_src :
    (∀ d center bounds zoom traffic coord_type u,
      u ∈ (baidumap_show_map d center bounds zoom traffic coord_type).2 →
      hasBaiduSrcUri "show" u) ∧
    (∀ d location title content zoom traffic coord_type u,
      u ∈ (baidumap_add_custom_marker d location title content zoom traffic coord_type).2 →
      hasBaiduSrcUri "marker" u) ∧
    (∀ d address u,
      u ∈ (baidumap_geocode_address d address).2 → hasBaiduSrcUri "geocoder" u) ∧
    (∀ d location zoom coord_type u,
      u ∈ (baidumap_reverse_geocode_location d location zoom coord_type).2 →
      hasBaiduSrcUri "geocoder" u) ∧
    (∀ d query region location bounds radius coord_type u,
      u ∈ (baidumap_poi_search d query region location bounds radius coord_type).2 →
      hasBaiduSrcUri "place/search" u) ∧
    (∀ d loads origin destination mode coord_type region origin_region destination_region
        origin_uid destination_uid sy index target car_type via_points_json u,
      u ∈ (baidumap_plan_route d loads origin destination mode coord_type region origin_region
        destination_region origin_uid destination_uid sy index target car_type
        via_points_json).2 →
      hasBaiduSrcUri "direction" u) ∧
    (∀ d loads query location uid nav_type via_points_json coord_type u,
      u ∈ (baidumap_start_driving_navigation d loads query location uid nav_type
        via_points_json coord_type).2 →
      hasBaiduSrcUri "navi" u) ∧
    (∀ d origin destination coord_type u,
      u ∈ (baidumap_start_biking_navigation d origin destination coord_type).2 →
      hasBaiduSrcUri "bikenavi" u) ∧
    (∀ d origin destination coord_type u,
      u ∈ (baidumap_start_walking_navigation d origin destination coord_type).2 →
      hasBaiduSrcUri "walknavi" u) ∧
    (∀ d uid show_type u,
      u ∈ (baidumap_show_poi_detail d uid show_type).2 →
      hasBaiduSrcUri "place/detail" u) ∧
    (∀ d cityid u,
      u ∈ (baidumap_open_news_assistant d cityid).2 →
      hasBaiduSrcUri "newsassistant" u) := by
  refine ⟨?_, ?_, ?_, ?_, ?_, ?_, ?_, ?_, ?_, ?_, ?_⟩
  · intro d c b z t ct u hu
    unfold baidumap_show_map at hu
    cases hq : firstSome (show_map_checks c b z t ct) with
    | some e => rw [runChecks_of_err _ hq] at hu; simp at hu
    | none =>
      rw [runChecks_of_none _ hq] at hu
      simp at hu
      rw [hu]
      exact build_uri_src_pred "show"
        [("center", optStr c), ("bounds", optStr b), ("zoom", optInt z),
         ("traffic", optStr t), ("coord_type", .str ct)]
  · intro d l ti co z t ct u hu
    unfold baidumap_add_custom_marker at hu
    cases hq : firstSome (add_custom_marker_checks l z t ct) with
    | some e => rw [runChecks_of_err _ hq] at hu; simp at hu
    | none =>
      rw [runChecks_of_none _ hq] at hu
      simp at hu
      rw [hu]
      exact build_uri_src_pred "marker"
        [("location", .str l), ("title", .str ti), ("content", optStr co),
         ("zoom", optInt z), ("traffic", optStr t), ("coord_type", .str ct)]
  · intro d a u hu
    unfold baidumap_geocode_address at hu
    cases hq : firstSome (geocode_address_checks a) with
    | some e => rw [runChecks_of_err _ hq] at hu; simp at hu
    | none =>
      rw [runChecks_of_none _ hq] at hu
      simp at hu
      rw [hu]
      exact build_uri_src_pred "geocoder" [("address", .str a)]
  · intro d l z ct u hu
    unfold baidumap_reverse_geocode_location at hu
    cases hq : firstSome (reverse_geocode_checks l z ct) with
    | some e => rw [runChecks_of_err _ hq] at hu; simp at hu
    | none =>
      rw [runChecks_of_none _ hq] at hu
      simp at hu
      rw [hu]
      exact build_uri_src_pred "geocoder"
        [("location", .str l), ("coord_type", .str ct), ("zoom", optInt z)]
  · intro d q rg l b rd ct u hu
    unfold baidumap_poi_search at hu
    cases hq : firstSome (poi_search_checks q l b rd ct) with
    | some e => rw [runChecks_of_err _ hq] at hu; simp at hu
    | none =>
      rw [runChecks_of_none _ hq] at hu
      simp at hu
      rw [hu]
      exact build_uri_src_pred "place/search"
        [("query", .str q), ("region", optStr rg), ("location", optStr l),
         ("bounds", optStr b), ("radius", optInt rd), ("coord_type", .str ct)]
  · intro d loads o dst mo ct rg og dg ou du sy idx tg car via u hu
    unfold baidumap_plan_route at hu
    cases hq : firstSome (plan_route_pre_checks o dst mo ct sy idx tg car) with
    | some e => rw [runChecks_of_err _ hq] at hu; simp at hu
    | none =>
      rw [runChecks_of_none _ hq] at hu
      cases via with
      | none =>
        simp at hu
        rw [hu]
        exact build_uri_src_pred "direction"
          [("origin", .str o), ("destination", .str dst), ("mode", .str mo),
           ("coord_type", .str ct), ("region", optStr rg),
           ("origin_region", optStr og), ("destination_region", optStr dg),
           ("origin_uid", optStr ou), ("destination_uid", optStr du),
           ("sy", optInt sy), ("index", optInt idx), ("target", optInt tg),
           ("car_type", optStr car), ("viaPoints", PyVal.null)]
      | some s =>
        cases hl : loads s with
        | none => simp [hl] at hu
        | some j =>
          cases hv : viaPointsCheckRoute j with
          | some e => simp [hl, hv] at hu
          | none =>
            simp [hl, hv] at hu
            rw [hu]
            exact build_uri_src_pred "direction"
              [("origin", .str o), ("destination", .str dst), ("mode", .str mo),
               ("coord_type", .str ct), ("region", optStr rg),
               ("origin_region", optStr og), ("destination_region", optStr dg),
               ("origin_uid", optStr ou), ("destination_uid", optStr du),
               ("sy", optInt sy), ("index", optInt idx), ("target", optInt tg),
               ("car_type", optStr car), ("viaPoints", j)]
  · intro d loads q l ud nt via ct u hu
    unfold baidumap_start_driving_navigation at hu
    cases hq : firstSome (driving_nav_pre_checks q l ud nt) with
    | some e => rw [runChecks_of_err _ hq] at hu; simp at hu
    | none =>
      rw [runChecks_of_none _ hq] at hu
      have hfin : ∀ j : PyVal,
          u ∈ (runChecks [validate_coord_type ct]
            (let uri := build_baidu_uri "navi" (driving_nav_params q l ud nt j ct)
             (Navigate d uri, [uri]))).2 →
          hasBaiduSrcUri "navi" u := by
        intro j hu2
        cases hc : firstSome [validate_coord_type ct] with
        | some e => rw [runChecks_of_err _ hc] at hu2; simp at hu2
        | none =>
          rw [runChecks_of_none _ hc] at hu2
          simp at hu2
          rw [hu2]
          exact build_uri_src_pred "navi"
            [("query", .str q), ("location", optStr l), ("uid", optStr ud),
             ("type", optStr nt), ("viaPoints", j), ("coord_type", .str ct)]
      cases via with
      | none => exact hfin PyVal.null hu
      | some s =>
        cases hl : loads s with
        | none => simp [hl] at hu
        | some j =>
          cases hv : viaPointsCheckNavi j with
          | some e => simp [hl, hv] at hu
          | none =>
            simp only [hl, hv] at hu
            exact hfin j hu
  · intro d o dst ct u hu
    unfold baidumap_start_biking_navigation at hu
    cases hq : firstSome (biking_nav_checks o dst ct) with
    | some e => rw [runChecks_of_err _ hq] at hu; simp at hu
    | none =>
      rw [runChecks_of_none _ hq] at hu
      simp at hu
      rw [hu]
      exact build_uri_src_pred "bikenavi"
        [("origin", .str o), ("destination", .str dst), ("coord_type", .str ct)]
  · intro d o dst ct u hu
    unfold baidumap_start_walking_navigation at hu
    cases hq : firstSome (biking_nav_checks o dst ct) with
    | some e => rw [runChecks_of_err _ hq] at hu; simp at hu
    | none =>
      rw [runChecks_of_none _ hq] at hu
      simp at hu
      rw [hu]
      exact build_uri_src_pred "walknavi"
        [("origin", .str o), ("destination", .str dst), ("coord_type", .str ct)]
  · intro d ud st u hu
    unfold baidumap_show_poi_detail at hu
    simp at hu
    rw [hu]
    exact build_uri_src_pred "place/detail"
      [("uid", .str ud), ("show_type", optStr st)]
  · intro d c u hu
    unfold baidumap_open_news_assistant at hu
    simp at hu
    rw [hu]
    exact build_uri_src_pred "newsassistant" [("cityid", optStr c)]

/-- Witness for C9: concrete dispatched URIs of the POI-detail and
map-show tools satisfy the prefix/`src` invariant. -/
theorem claim_c9_uri_prefix_and_src_witness :
    hasBaiduSrcUri "place/detail"
      "baidumap://map/place/detail?uid=x&show_type=detail_bar&src=andr.xiaomi.assistant" ∧
    hasBaiduSrcUri "show"
      "baidumap://map/show?center=40.057406%2C116.296440&zoom=13&coord_type=wgs84&src=andr.xiaomi.assistant" :=
  ⟨claim_c9_uri_prefix_and_src.2.2.2.2.2.2.2.2.2.1 (fun _ => DispatchOutcome.ok)
     "x" (some "detail_bar") _ (by decide),
   claim_c9_uri_prefix_and_src.1 (fun _ => DispatchOutcome.ok)
     (some "40.057406,116.296440") none (some 13) none "wgs84" _ (by decide)⟩

/-! ## C3: way-point validation -/

theorem firstSome_map_eq_none {α : Type} (f : α → Option ToolResult) (l : List α) :
    firstSome (l.map f) = none ↔ ∀ x ∈ l, f x = none := by
  induction l with
  | nil => simp [firstSome]
  | cons x r ih =>
    cases hx : f x with
    | some e => simp [firstSome, hx]
    | none => simp [firstSome, hx, ih]

/-- Acceptance predicate of the route-planning way-point check, read off
the code: a list of dictionaries with the three keys present, `name` a
string and `lat`/`lng` Python numbers — where `bool` counts as a number
because it subclasses `int`. -/
def wellTypedPointRoute (p : PyVal) : Bool :=
  match p with
  | .dict fs =>
    hasKey fs "name" && hasKey fs "lat" && hasKey fs "lng" &&
    isPyStr ((dictGet fs "name").getD .null) &&
    isPyNumber ((dictGet fs "lat").getD .null) &&
    isPyNumber ((dictGet fs "lng").getD .null)
  | _ => false

def wellTypedWaypointsRoute (j : PyVal) : Bool :=
  match j with
  | .list pts => pts.all wellTypedPointRoute
  | _ => false

/-- Acceptance predicate of the driving-navigation way-point check: key
presence only, no type constraint. -/
def keyedPoint (p : PyVal) : Bool :=
  match p with
  | .dict fs => hasKey fs "name" && hasKey fs "lat" && hasKey fs "lng"
  | _ => false

def keyedWaypoints (j : PyVal) : Bool :=
  match j with
  | .list pts => pts.all keyedPoint
  | _ => false

theorem checkViaPointRoute_none_iff (p : PyVal) :
    checkViaPointRoute p = none ↔ wellTypedPointRoute p = true := by
  cases p
  case dict fs =>
    simp only [checkViaPointRoute, wellTypedPointRoute]
    cases h1 : hasKey fs "name" <;> cases h2 : hasKey fs "lat" <;> cases h3 : hasKey fs "lng" <;>
      cases h4 : isPyStr ((dictGet fs "name").getD .null) <;>
      cases h5 : isPyNumber ((dictGet fs "lat").getD .null) <;>
      cases h6 : isPyNumber ((dictGet fs "lng").getD .null) <;>
      simp [h1, h2, h3, h4, h5, h6]
  all_goals simp [checkViaPointRoute, wellTypedPointRoute]

theorem checkViaPointNavi_none_iff (p : PyVal) :
    checkViaPointNavi p = none ↔ keyedPoint p = true := by
  cases p
  case dict fs =>
    simp only [checkViaPointNavi, keyedPoint]
    cases h1 : hasKey fs "name" <;> cases h2 : hasKey fs "lat" <;> cases h3 : hasKey fs "lng" <;>
      simp [h1, h2, h3]
  all_goals simp [checkViaPointNavi, keyedPoint]

/-- C3 (amended): for both operations that accept `via_points_json`, a
supplied string is accepted exactly when it parses as JSON to a list of
dictionaries all containing the keys `name`, `lat`, `lng`; the
route-planning variant additionally requires `name` to be a string and
`lat`/`lng` to be Python numbers (booleans included, `bool` being an
`int` subclass), while the driving-navigation variant performs no type
check at all.  The closed conjuncts check the spec's two §8 vectors. -/
theorem claim_c3_waypoints_amended :
    (∀ (loads : String → Option PyVal) (s : String),
      (planRouteViaValidation loads s = none ↔
        ∃ j, loads s = some j ∧ wellTypedWaypointsRoute j = true) ∧
      (naviViaValidation loads s = none ↔
        ∃ j, loads s = some j ∧ keyedWaypoints j = true)) ∧
    viaPointsCheckRoute
      (.list [.dict [("name", .str "A"), ("lat", .float "22.1"), ("lng", .float "114.1")]]) = none ∧
    viaPointsCheckRoute (.list [.dict [("name", .str "A")]]) = some (.err viaKeysMsg) := by
  refine ⟨?_, by decide, by decide⟩
  intro loads s
  constructor
  · cases hl : loads s with
    | none => simp [planRouteViaValidation, hl]
    | some j =>
      simp only [planRouteViaValidation, hl, Option.some.injEq]
      cases j <;> simp [viaPointsCheckRoute, wellTypedWaypointsRoute]
      case list pts =>
        rw [firstSome_map_eq_none]
        simp only [checkViaPointRoute_none_iff]
  · cases hl : loads s with
    | none => simp [naviViaValidation, hl]
    | some j =>
      simp only [naviViaValidation, hl, Option.some.injEq]
      cases j <;> simp [viaPointsCheckNavi, keyedWaypoints]
      case list pts =>
        rw [firstSome_map_eq_none]
        simp only [checkViaPointNavi_none_iff]

/-- A concrete stand-in for `json.loads`, defined on the two JSON texts
used as counterexamples; it maps each to exactly the Python value
`json.loads` produces on it. -/
def loadsStub : String → Option PyVal := fun s =>
  if s = "[\x7b\"name\":\"A\",\"lat\":true,\"lng\":1.0\x7d]" then
    some (.list [.dict [("name", .str "A"), ("lat", .bool true), ("lng", .float "1.0")]])
  else if s = "[\x7b\"name\":1,\"lat\":\"x\",\"lng\":null\x7d]" then
    some (.list [.dict [("name", .int 1), ("lat", .str "x"), ("lng", .null)]])
  else none

/-- Counterexample to C3 as stated: a way-point whose `lat` is the JSON
boolean `true` (not a number) passes the route-planning validation, and a
way-point with every field wrongly typed passes the driving-navigation
validation; route planning even dispatches a navigation intent for the
boolean-`lat` way-point list. -/
theorem claim_c3_waypoints_counterexample :
    planRouteViaValidation loadsStub "[\x7b\"name\":\"A\",\"lat\":true,\"lng\":1.0\x7d]" = none ∧
    naviViaValidation loadsStub "[\x7b\"name\":1,\"lat\":\"x\",\"lng\":null\x7d]" = none ∧
    (baidumap_plan_route (fun _ => DispatchOutcome.ok) loadsStub
      "A" "B" "driving" "wgs84" none none none none none none none none none
      (some "[\x7b\"name\":\"A\",\"lat\":true,\"lng\":1.0\x7d]")).2.length = 1 := by
  refine ⟨by decide, by decide, by decide⟩

/-- Witness for the amended C3 at a concrete parse result. -/
theorem claim_c3_waypoints_amended_witness :
    ∃ j, loadsStub "[\x7b\"name\":\"A\",\"lat\":true,\"lng\":1.0\x7d]" = some j ∧
      wellTypedWaypointsRoute j = true :=
  ((claim_c3_waypoints_amended.1 loadsStub
    "[\x7b\"name\":\"A\",\"lat\":true,\"lng\":1.0\x7d]").1).mp (by decide)

/-! ## C5: the latitude/longitude validator -/

theorem latLngCountMsg_names (n v : String) :
    ∃ pre post, latLngCountMsg n v = pre ++ n ++ post :=
  ⟨"Parameter \x27",
   "\x27 (\x27" ++ v ++
     "\x27) has an incorrect format. Expected \x27latitude,longitude\x27 (e.g., \x2740.057406,116.296440\x27).",
   by simp [latLngCountMsg, String.append_assoc]⟩

theorem latLngNumMsg_names (n v : String) :
    ∃ pre post, latLngNumMsg n v = pre ++ n ++ post :=
  ⟨"Parameter \x27",
   "\x27 (\x27" ++ v ++
     "\x27) contains non-numeric coordinates. Both latitude and longitude must be numbers in \x27latitude,longitude\x27 format.",
   by simp [latLngNumMsg, String.append_assoc]⟩

/-- C5: the validator accepts exactly the strings that split on commas
into two parts, each accepted by Python `float()` after stripping
whitespace; every rejection is an error envelope whose message names the
offending field.  The closed conjuncts check representative vectors. -/
theorem claim_c5_lat_lng_validator : ∀ (s name : String),
    (validate_lat_lng_format s name = none ↔
      ((splitComma s.toList).length = 2 ∧
        ∀ p ∈ splitComma s.toList, pyFloatAccepts (pyStrip p) = true)) ∧
    (validate_lat_lng_format s name ≠ none →
      ∃ msg, validate_lat_lng_format s name = some (.err msg) ∧
        ∃ pre post, msg = pre ++ name ++ post) ∧
    validate_lat_lng_format "40.057406,116.296440" name = none ∧
    (∃ m, validate_lat_lng_format "1,2,3" name = some (.err m)) ∧
    (∃ m, validate_lat_lng_format "abc,1" name = some (.err m)) := by
  intro s name
  refine ⟨?_, ?_, rfl, ⟨_, rfl⟩, ⟨_, rfl⟩⟩
  · unfold validate_lat_lng_format
    cases hs : splitComma s.toList with
    | nil => simp
    | cons p0 t =>
      cases t with
      | nil => simp
      | cons p1 t2 =>
        cases t2 with
        | nil =>
          cases hf0 : pyFloatAccepts (pyStrip p0) <;>
            cases hf1 : pyFloatAccepts (pyStrip p1) <;> simp [hf0, hf1]
        | cons p2 t3 => simp
  · unfold validate_lat_lng_format
    cases hs : splitComma s.toList with
    | nil => exact fun _ => ⟨_, rfl, latLngCountMsg_names name s⟩
    | cons p0 t =>
      cases t with
      | nil => exact fun _ => ⟨_, rfl, latLngCountMsg_names name s⟩
      | cons p1 t2 =>
        cases t2 with
        | nil =>
          intro hne
          cases hf0 : pyFloatAccepts (pyStrip p0) <;> cases hf1 : pyFloatAccepts (pyStrip p1)
          · exact ⟨_, by simp [hf0, hf1], latLngNumMsg_names name s⟩
          · exact ⟨_, by simp [hf0, hf1], latLngNumMsg_names name s⟩
          · exact ⟨_, by simp [hf0, hf1], latLngNumMsg_names name s⟩
          · exact absurd (by simp [hf0, hf1]) hne
        | cons p2 t3 => exact fun _ => ⟨_, rfl, latLngCountMsg_names name s⟩

/-- Witness for C5: both directions of the characterization and the
error-naming conclusion at concrete inputs. -/
theorem claim_c5_lat_lng_validator_witness :
    validate_lat_lng_format "39.91,116.40" "origin" = none ∧
    (∃ msg, validate_lat_lng_format "1,2,3" "bounds" = some (.err msg) ∧
      ∃ pre post, msg = pre ++ "bounds" ++ post) :=
  ⟨((claim_c5_lat_lng_validator "39.91,116.40" "origin").1).mpr (by decide),
   (claim_c5_lat_lng_validator "1,2,3" "bounds").2.1 (by decide)⟩

/-! ## C4: the complex location-field validator

The key fact is that whenever the `latlng:` search pattern matches, the
captured `lat,lng` substring always passes `_validate_lat_lng_format`:
each captured number is `-?` digits optionally followed by `.` digits,
and every such string is accepted by Python's `float()`. -/

theorem pyIsSpace_of_digit {c : Char} (h : isAsciiDigit c = true) :
    pyIsSpace c = false := by
  simp [isAsciiDigit] at h
  simp [pyIsSpace]
  omega

theorem lowerChar_digit {c : Char} (h : isAsciiDigit c = true) : lowerChar c = c := by
  simp [isAsciiDigit] at h
  simp [lowerChar]
  omega

theorem digit_ne_plus {c : Char} (h : isAsciiDigit c = true) : (c = '+') = False := by
  simp only [eq_iff_iff, iff_false]
  intro he
  rw [he] at h
  simp [isAsciiDigit] at h

theorem digit_ne_minus {c : Char} (h : isAsciiDigit c = true) : (c = '-') = False := by
  simp only [eq_iff_iff, iff_false]
  intro he
  rw [he] at h
  simp [isAsciiDigit] at h

theorem digit_ne_underscore {c : Char} (h : isAsciiDigit c = true) : (c = '_') = False := by
  simp only [eq_iff_iff, iff_false]
  intro he
  rw [he] at h
  simp [isAsciiDigit] at h

theorem digit_ne_comma {c : Char} (h : isAsciiDigit c = true) : c ≠ ',' := by
  intro he
  rw [he] at h
  simp [isAsciiDigit] at h

theorem dropWhile_eq_self_of_all {p : Char → Bool} {l : List Char}
    (h : ∀ c ∈ l, p c = false) : l.dropWhile p = l := by
  cases l with
  | nil => rfl
  | cons c r =>
    rw [List.dropWhile_cons, h c (by simp)]
    simp

theorem pyStrip_eq_self {l : List Char} (h : ∀ c ∈ l, pyIsSpace c = false) :
    pyStrip l = l := by
  unfold pyStrip
  rw [dropWhile_eq_self_of_all h,
      dropWhile_eq_self_of_all (fun c hc => h c (List.mem_reverse.mp hc)),
      List.reverse_reverse]

theorem digitRunCont_digits_append (ds tail : List Char)
    (hd : ∀ c ∈ ds, isAsciiDigit c = true)
    (ht : tail = [] ∨ ∃ c r, tail = c :: r ∧ isAsciiDigit c = false ∧ c ≠ '_') :
    digitRunCont (ds ++ tail) = (ds, tail) := by
  induction ds with
  | nil =>
    rcases ht with h | ⟨c, r, hcr, hc1, hc2⟩
    · rw [h]; rfl
    · rw [hcr]
      show digitRunCont (c :: r) = ([], c :: r)
      unfold digitRunCont
      rw [hc1]
      simp only [Bool.false_eq_true, if_false]
      rw [if_neg hc2]
  | cons d ds' ih =>
    have hdd : isAsciiDigit d = true := hd d (by simp)
    have ih2 := ih (fun c hc => hd c (by simp [hc]))
    show digitRunCont (d :: (ds' ++ tail)) = (d :: ds', tail)
    unfold digitRunCont
    rw [hdd]
    simp [ih2]

theorem digitRun_digits_append (ds tail : List Char) (h0 : ds ≠ [])
    (hd : ∀ c ∈ ds, isAsciiDigit c = true)
    (ht : tail = [] ∨ ∃ c r, tail = c :: r ∧ isAsciiDigit c = false ∧ c ≠ '_') :
    digitRun (ds ++ tail) = (ds, tail) := by
  cases ds with
  | nil => exact absurd rfl h0
  | cons d ds' =>
    have hdd : isAsciiDigit d = true := hd d (by simp)
    have h2 := digitRunCont_digits_append ds' tail (fun c hc => hd c (by simp [hc])) ht
    show digitRun (d :: (ds' ++ tail)) = (d :: ds', tail)
    unfold digitRun
    simp [hdd, h2]

theorem asciiDigits_append (cs : List Char) :
    (asciiDigits cs).1 ++ (asciiDigits cs).2 = cs := by
  induction cs with
  | nil => rfl
  | cons c r ih =>
    unfold asciiDigits
    cases hc : isAsciiDigit c <;> simp [hc, ih]

theorem asciiDigits_digits (cs : List Char) :
    ∀ c ∈ (asciiDigits cs).1, isAsciiDigit c = true := by
  induction cs with
  | nil => simp [asciiDigits]
  | cons c r ih =>
    cases hc : isAsciiDigit c
    · have h1 : (asciiDigits (c :: r)).1 = [] := by
        simp [asciiDigits, hc]
      rw [h1]; simp
    · have h1 : (asciiDigits (c :: r)).1 = c :: (asciiDigits r).1 := by
        simp [asciiDigits, hc]
      rw [h1]
      intro x hx
      rcases List.mem_cons.mp hx with h | h
      · rw [h]; exact hc
      · exact ih x h

theorem asciiDigits_rest (cs : List Char) :
    (asciiDigits cs).2 = [] ∨
      ∃ c r, (asciiDigits cs).2 = c :: r ∧ isAsciiDigit c = false := by
  induction cs with
  | nil => exact Or.inl rfl
  | cons c r ih =>
    cases hc : isAsciiDigit c
    · have h2 : (asciiDigits (c :: r)).2 = c :: r := by
        simp [asciiDigits, hc]
      exact Or.inr ⟨c, r, h2, hc⟩
    · have h2 : (asciiDigits (c :: r)).2 = (asciiDigits r).2 := by
        simp [asciiDigits, hc]
      rw [h2]; exact ih

theorem digitRun_all_digits (fs : List Char)
    (hd : ∀ c ∈ fs, isAsciiDigit c = true) : digitRun fs = (fs, []) := by
  cases fs with
  | nil => rfl
  | cons f fs' =>
    have h := digitRun_digits_append (f :: fs') [] (by simp) hd (Or.inl rfl)
    rwa [List.append_nil] at h

theorem eatMantissa_digits (ds tail : List Char) (h0 : ds ≠ [])
    (hd : ∀ c ∈ ds, isAsciiDigit c = true)
    (ht : tail = [] ∨ ∃ fs, tail = '.' :: fs ∧ ∀ c ∈ fs, isAsciiDigit c = true) :
    eatMantissa (ds ++ tail) = some [] := by
  have htail : tail = [] ∨ ∃ c r, tail = c :: r ∧ isAsciiDigit c = false ∧ c ≠ '_' := by
    rcases ht with h | ⟨fs, hfs, _⟩
    · exact Or.inl h
    · exact Or.inr ⟨'.', fs, hfs, by decide, by decide⟩
  have hrun := digitRun_digits_append ds tail h0 hd htail
  have hne : ds.isEmpty = false := by
    cases ds
    · exact absurd rfl h0
    · rfl
  unfold eatMantissa
  rw [hrun]
  rcases ht with h | ⟨fs, hfs, hfsd⟩
  · subst h
    simp [hne]
  · subst hfs
    simp [hne, digitRun_all_digits fs hfsd]

/-- The shape of a string matched by the regex number `-?\d+\.?\d*`. -/
def NumShape (n : List Char) : Prop :=
  ∃ sgn ds tail, (sgn = [] ∨ sgn = ['-']) ∧ ds ≠ [] ∧
    (∀ c ∈ ds, isAsciiDigit c = true) ∧
    (tail = [] ∨ ∃ fs, tail = '.' :: fs ∧ ∀ c ∈ fs, isAsciiDigit c = true) ∧
    n = sgn ++ ds ++ tail

theorem isInfNan_digit_head {d : Char} (R : List Char) (hdd : isAsciiDigit d = true) :
    isInfNan (d :: R) = false := by
  simp only [isInfNan, Bool.or_eq_false_iff, decide_eq_false_iff_not]
  refine ⟨⟨?_, ?_⟩, ?_⟩ <;> intro he <;>
    obtain ⟨h1, -⟩ := List.cons.inj he <;> rw [h1] at hdd <;> simp [isAsciiDigit] at hdd

theorem numShape_mem {n : List Char} (h : NumShape n) :
    ∀ c ∈ n, isAsciiDigit c = true ∨ c = '-' ∨ c = '.' := by
  obtain ⟨sgn, ds, tail, hsgn, h0, hd, ht, hn⟩ := h
  subst hn
  intro c hc
  rw [List.mem_append, List.mem_append] at hc
  rcases hc with (hc | hc) | hc
  · right; left
    rcases hsgn with h | h <;> rw [h] at hc <;> simpa using hc
  · left; exact hd c hc
  · rcases ht with h | ⟨fs, hfs, hfsd⟩
    · rw [h] at hc; simp at hc
    · rw [hfs] at hc
      rcases List.mem_cons.mp hc with hc | hc
      · right; right; exact hc
      · left; exact hfsd c hc

theorem numShape_no_comma {n : List Char} (h : NumShape n) : ',' ∉ n := by
  intro hc
  rcases numShape_mem h ',' hc with h1 | h1 | h1 <;> simp [isAsciiDigit] at h1

theorem numShape_no_space {n : List Char} (h : NumShape n) :
    ∀ c ∈ n, pyIsSpace c = false := by
  intro c hc
  rcases numShape_mem h c hc with h1 | h1 | h1
  · exact pyIsSpace_of_digit h1
  · rw [h1]; decide
  · rw [h1]; decide

/-- Every string of shape `-?\d+\.?\d*` is accepted by Python `float()`. -/
theorem numShape_float {n : List Char} (h : NumShape n) : pyFloatAccepts n = true := by
  have hspace := numShape_no_space h
  obtain ⟨sgn, ds, tail, hsgn, h0, hd, ht, hn⟩ := h
  subst hn
  obtain ⟨d, ds', rfl⟩ := List.exists_cons_of_ne_nil h0
  have hdd : isAsciiDigit d = true := hd d (by simp)
  have h1 : pyStrip (sgn ++ (d :: ds') ++ tail) = sgn ++ (d :: ds') ++ tail :=
    pyStrip_eq_self hspace
  have h2 : stripSign (sgn ++ (d :: ds') ++ tail) = (d :: ds') ++ tail := by
    rcases hsgn with h | h <;> subst h
    · show stripSign (d :: (ds' ++ tail)) = d :: (ds' ++ tail)
      simp [stripSign, digit_ne_plus hdd, digit_ne_minus hdd]
    · show stripSign ('-' :: ((d :: ds') ++ tail)) = (d :: ds') ++ tail
      simp [stripSign]
  have h3 : isInfNan (((d :: ds') ++ tail).map lowerChar) = false := by
    have hm : ((d :: ds') ++ tail).map lowerChar =
        lowerChar d :: (ds' ++ tail).map lowerChar := by simp
    rw [hm, lowerChar_digit hdd]
    exact isInfNan_digit_head _ hdd
  have h4 : eatMantissa ((d :: ds') ++ tail) = some [] :=
    eatMantissa_digits (d :: ds') tail (by simp) hd ht
  simp only [pyFloatAccepts, h1, h2, h3, h4]
  rfl

theorem matchSign_sign (cs : List Char) :
    (matchSign cs).1 = [] ∨ (matchSign cs).1 = ['-'] := by
  cases cs with
  | nil => exact Or.inl rfl
  | cons c r =>
    by_cases hc : c = '-'
    · right; simp [matchSign, hc]
    · left; simp [matchSign, hc]

theorem matchNum_shape {cs n rest : List Char} (h : matchNum cs = some (n, rest)) :
    NumShape n := by
  simp only [matchNum] at h
  cases hp : (asciiDigits (matchSign cs).2).1.isEmpty with
  | true => rw [hp] at h; simp at h
  | false =>
    rw [hp] at h
    simp only [Bool.false_eq_true, if_false] at h
    have hds : (asciiDigits (matchSign cs).2).1 ≠ [] := by
      intro hnil
      rw [hnil] at hp
      simp at hp
    cases hrest : (asciiDigits (matchSign cs).2).2 with
    | nil =>
      rw [hrest] at h
      simp only [Option.some.injEq, Prod.mk.injEq] at h
      obtain ⟨h1, -⟩ := h
      refine ⟨(matchSign cs).1, (asciiDigits (matchSign cs).2).1, [],
        matchSign_sign cs, hds, asciiDigits_digits _, Or.inl rfl, ?_⟩
      rw [← h1, List.append_nil]
    | cons c r2 =>
      rw [hrest] at h
      have h' : (if c = '.' then
          some ((matchSign cs).1 ++ (asciiDigits (matchSign cs).2).1 ++
            '.' :: (asciiDigits r2).1, (asciiDigits r2).2)
        else some ((matchSign cs).1 ++ (asciiDigits (matchSign cs).2).1, c :: r2)) =
          some (n, rest) := h
      by_cases hdot : c = '.'
      · rw [if_pos hdot] at h'
        simp only [Option.some.injEq, Prod.mk.injEq] at h'
        obtain ⟨h1, -⟩ := h'
        refine ⟨(matchSign cs).1, (asciiDigits (matchSign cs).2).1,
          '.' :: (asciiDigits r2).1,
          matchSign_sign cs, hds, asciiDigits_digits _,
          Or.inr ⟨(asciiDigits r2).1, rfl, asciiDigits_digits _⟩, h1.symm⟩
      · rw [if_neg hdot] at h'
        simp only [Option.some.injEq, Prod.mk.injEq] at h'
        obtain ⟨h1, -⟩ := h'
        refine ⟨(matchSign cs).1, (asciiDigits (matchSign cs).2).1, [],
          matchSign_sign cs, hds, asciiDigits_digits _, Or.inl rfl, ?_⟩
        rw [← h1, List.append_nil]

theorem matchPair_shape {cs g : List Char} (h : matchPair cs = some g) :
    ∃ n1 n2, NumShape n1 ∧ NumShape n2 ∧ g = n1 ++ ',' :: n2 := by
  unfold matchPair at h
  cases hm1 : matchNum cs with
  | none => rw [hm1] at h; simp at h
  | some p1 =>
    obtain ⟨n1, rest⟩ := p1
    rw [hm1] at h
    cases rest with
    | nil => simp at h
    | cons c r2 =>
      have h' : (if c = ',' then
          (match matchNum r2 with
           | some (n2, _) => some (n1 ++ ',' :: n2)
           | none => none)
        else none) = some g := h
      by_cases hc : c = ','
      · rw [if_pos hc] at h'
        cases hm2 : matchNum r2 with
        | none => rw [hm2] at h'; simp at h'
        | some p2 =>
          obtain ⟨n2, rest2⟩ := p2
          rw [hm2] at h'
          simp only [Option.some.injEq] at h'
          exact ⟨n1, n2, matchNum_shape hm1, matchNum_shape hm2, h'.symm⟩
      · rw [if_neg hc] at h'
        simp at h'

theorem latlngSearch_shape {cs g : List Char} (h : latlngSearch cs = some g) :
    ∃ n1 n2, NumShape n1 ∧ NumShape n2 ∧ g = n1 ++ ',' :: n2 := by
  induction cs with
  | nil => simp [latlngSearch] at h
  | cons c r ih =>
    unfold latlngSearch at h
    cases hb : ("latlng:".toList).isPrefixOf (c :: r) with
    | false =>
      rw [hb] at h
      simp only [Bool.false_eq_true, if_false] at h
      exact ih h
    | true =>
      rw [hb] at h
      simp only [if_true] at h
      cases hm : matchPair ((c :: r).drop 7) with
      | none =>
        rw [hm] at h
        exact ih h
      | some g2 =>
        rw [hm] at h
        simp only [Option.some.injEq] at h
        rw [← h]
        exact matchPair_shape hm

theorem splitComma_no_comma {a : List Char} (h : ',' ∉ a) : splitComma a = [a] := by
  induction a with
  | nil => rfl
  | cons c r ih =>
    have hc : c ≠ ',' := by
      intro he
      subst he
      exact h (List.mem_cons_self _ _)
    have ih2 := ih (fun hm => h (List.mem_cons_of_mem c hm))
    have h1 : splitComma (c :: r) =
        if c = ',' then [] :: splitComma r
        else match splitComma r with
          | x :: t => (c :: x) :: t
          | [] => [[c]] := rfl
    rw [h1, if_neg hc, ih2]

theorem splitComma_append {a : List Char} (b : List Char) (h : ',' ∉ a) :
    splitComma (a ++ ',' :: b) = a :: splitComma b := by
  induction a with
  | nil => rfl
  | cons c r ih =>
    have hc : c ≠ ',' := by
      intro he
      subst he
      exact h (List.mem_cons_self _ _)
    have ih2 := ih (fun hm => h (List.mem_cons_of_mem c hm))
    show splitComma (c :: (r ++ ',' :: b)) = (c :: r) :: splitComma b
    have h1 : splitComma (c :: (r ++ ',' :: b)) =
        if c = ',' then [] :: splitComma (r ++ ',' :: b)
        else match splitComma (r ++ ',' :: b) with
          | x :: t => (c :: x) :: t
          | [] => [[c]] := rfl
    rw [h1, if_neg hc, ih2]

/-- A captured `lat,lng` pair always passes the lat/lng validator. -/
theorem validate_pair_none (n1 n2 : List Char) (h1 : NumShape n1) (h2 : NumShape n2)
    (name : String) :
    validate_lat_lng_format (String.mk (n1 ++ ',' :: n2)) name = none := by
  unfold validate_lat_lng_format
  have htl : (String.mk (n1 ++ ',' :: n2)).toList = n1 ++ ',' :: n2 := rfl
  rw [htl, splitComma_append n2 (numShape_no_comma h1),
      splitComma_no_comma (numShape_no_comma h2)]
  have hf1 : pyFloatAccepts (pyStrip n1) = true := by
    rw [pyStrip_eq_self (numShape_no_space h1)]
    exact numShape_float h1
  have hf2 : pyFloatAccepts (pyStrip n2) = true := by
    rw [pyStrip_eq_self (numShape_no_space h2)]
    exact numShape_float h2
  simp [hf1, hf2]

/-- C4: the location-field validator's three-way branch.  When the
`latlng:(-?\d+\.?\d*,-?\d+\.?\d*)` search pattern matches, the captured
pair is handed to the lat/lng validator — and always passes it, because
captured numbers are valid float literals; when the pattern does not
match, a string containing a comma but neither `name:` nor `uid:` is
validated whole as a bare pair, and every other string is accepted
unconditionally. -/
theorem claim_c4_location_field : ∀ (s name : String),
    (∀ g, latlngSearch s.toList = some g →
      validate_location_field_format s name = none ∧
      validate_lat_lng_format (String.mk g) (latlngPartName name s) = none) ∧
    (latlngSearch s.toList = none →
      validate_location_field_format s name =
        (if s.toList.contains ',' &&
            !(containsSub "name:".toList s.toList) &&
            !(containsSub "uid:".toList s.toList)
         then validate_lat_lng_format s name
         else none)) := by
  intro s name
  constructor
  · intro g hg
    obtain ⟨n1, n2, h1, h2, rfl⟩ := latlngSearch_shape hg
    have hv := validate_pair_none n1 n2 h1 h2 (latlngPartName name s)
    constructor
    · unfold validate_location_field_format
      rw [hg]
      exact hv
    · exact hv
  · intro hg
    unfold validate_location_field_format
    rw [hg]

/-- Witness for C4: a matched `latlng:` composite is accepted, and a
comma-containing free-text string falls through to the bare-pair
validation branch. -/
theorem claim_c4_location_field_witness :
    (validate_location_field_format "name:X|latlng:39.98871,116.43234" "origin" = none ∧
      validate_lat_lng_format (String.mk "39.98871,116.43234".toList)
        (latlngPartName "origin" "name:X|latlng:39.98871,116.43234") = none) ∧
    validate_location_field_format "Main Street, City" "origin" =
      (if ("Main Street, City" : String).toList.contains ',' &&
          !(containsSub "name:".toList ("Main Street, City" : String).toList) &&
          !(containsSub "uid:".toList ("Main Street, City" : String).toList)
       then validate_lat_lng_format "Main Street, City" "origin"
       else none) :=
  ⟨(claim_c4_location_field "name:X|latlng:39.98871,116.43234" "origin").1
     "39.98871,116.43234".toList (by decide),
   (claim_c4_location_field "Main Street, City" "origin").2 (by decide)⟩
